import Mathlib

/-!
Verification development for the softball-scout repository.

This file gives a shallow embedding, in Lean 4, of the data model and of the
import/reconciliation operations of the repository (src/database.py,
src/import_csv.py, src/importer.py), and proves or refutes the specified
properties about them.

Modelling conventions:
* The SQLite database is modelled as an explicit state value (`DB`) holding the
  table contents as lists in rowid order, together with the next AUTOINCREMENT
  id for each table.  Every database helper of database.py becomes a pure
  function from `DB` to a result paired with the new `DB`.
* Python values that flow through dynamically typed variables (worksheet cells,
  the `game_date` parameter of the unified importer) are modelled by `PyVal`;
  Python truthiness is `PyVal.truthy` / `optTruthy`.
* CSV files are modelled by their parsed content: the header row plus the list
  of `csv.DictReader` rows (association lists from column name to cell string).
* Python `str` methods used by the source (strip, lower, upper, title, replace,
  substring containment, the concrete regular expressions) are implemented as
  executable functions over `List Char`, because the corresponding Lean core
  `String` functions do not reduce inside the kernel.
* Fractional numbers (pitching ip, derived batting/pitching metrics) are
  modelled by `Rat`.  All guards of the source are `if denominator > 0` tests,
  so no rounding questions arise in the claims treated here.
-/

set_option maxHeartbeats 1000000

namespace SB

/-- A dynamically typed Python value, as stored in worksheet cells and passed
through the duck-typed parameters of the importers. -/
inductive PyVal where
  | pnone
  | pstr (s : String)
  | pbool (b : Bool)
  | pint (n : Int)
  | pfloat (q : Rat)
deriving Repr, DecidableEq

/-- Python truthiness of a `PyVal` (`bool(v)`). -/
def PyVal.truthy : PyVal → Bool
  | .pnone => false
  | .pstr s => s ≠ ""
  | .pbool b => b
  | .pint n => n ≠ 0
  | .pfloat q => q ≠ 0

/-- Python truthiness of an `Optional[str]` variable. -/
def optTruthy : Option String → Bool
  | .none => false
  | .some s => s ≠ ""

/-- Python truthiness of an optional integer (`if team_id:` and friends). -/
def optNatTruthy : Option Nat → Bool
  | .none => false
  | .some n => n ≠ 0

/-! ### Character-list implementations of the Python string methods used -/

/-- `s.lower()`. -/
def strLower (s : String) : String := ⟨s.data.map Char.toLower⟩

/-- `s.upper()`. -/
def strUpper (s : String) : String := ⟨s.data.map Char.toUpper⟩

/-- ASCII/uncode whitespace test used for `str.strip()`. -/
def isWs (c : Char) : Bool := c = ' ' || c = '\t' || c = '\n' || c = '\r'

/-- `s.strip()` on a character list. -/
def stripList (cs : List Char) : List Char :=
  ((cs.dropWhile isWs).reverse.dropWhile isWs).reverse

/-- `s.strip()`. -/
def strStrip (s : String) : String := ⟨stripList s.data⟩

/-- `s.rstrip()` (trailing whitespace only). -/
def strRStrip (s : String) : String := ⟨(s.data.reverse.dropWhile isWs).reverse⟩

/-- `s.replace(c, d)` for one-character patterns, e.g. `replace('_', ' ')`. -/
def strReplaceChar (s : String) (c d : Char) : String :=
  ⟨s.data.map (fun x => if x = c then d else x)⟩

/-- `s.replace(c, '')` for a one-character pattern, e.g. `replace(' ', '')`. -/
def strRemoveChar (s : String) (c : Char) : String :=
  ⟨s.data.filter (fun x => x ≠ c)⟩

/-- Python `sub in s`: substring containment, used both by the fuzzy opponent
match and by header sniffing. -/
def pyIn (sub s : String) : Bool := decide (sub.data <:+: s.data)

/-- `s.endswith(t)` for a one-character suffix. -/
def strEndsWithChar (s : String) (c : Char) : Bool :=
  match s.data.getLast? with
  | some d => d = c
  | none => false

/-- Python `str.title()`: the first cased character of every run of cased
characters is uppercased, the rest are lowercased. -/
def pyTitle (s : String) : String :=
  ⟨(s.data.foldl
      (fun (acc : List Char × Bool) c =>
        if c.isAlpha then (acc.1 ++ [if acc.2 then c.toLower else c.toUpper], true)
        else (acc.1 ++ [c], false))
      ([], false)).1⟩

/-- Python `str.capitalize()`: first character uppercased, the rest lowercased. -/
def pyCapitalize (s : String) : String :=
  match s.data with
  | [] => ""
  | c :: cs => ⟨c.toUpper :: cs.map Char.toLower⟩

/-- Case-insensitive literal prefix match: consumes `pre` (given lowercase)
from the front of `cs`, returning the remainder. -/
def dropLitCI : List Char → List Char → Option (List Char)
  | [], cs => some cs
  | _ :: _, [] => none
  | p :: ps, c :: cs => if c.toLower = p then dropLitCI ps cs else none

/-- Case-sensitive literal prefix match, returning the remainder. -/
def dropLit : List Char → List Char → Option (List Char)
  | [], cs => some cs
  | _ :: _, [] => none
  | p :: ps, c :: cs => if c = p then dropLit ps cs else none

/-- Digits of a decimal string as a natural number (callers guarantee the
string is all digits, mirroring `int(...)` on a regex digit group). -/
def digitsToNat (cs : List Char) : Nat :=
  cs.foldl (fun n c => n * 10 + (c.toNat - '0'.toNat)) 0

/-- Split a character list on a separator, keeping empty pieces (Python
`str.split(sep)`). -/
def splitOnChar (sep : Char) : List Char → List (List Char)
  | [] => [[]]
  | c :: rest =>
      let r := splitOnChar sep rest
      if c = sep then [] :: r
      else
        match r with
        | h :: t => (c :: h) :: t
        | [] => [[c]]

/-- `pathlib.Path(p).name`: the final path component. -/
def pathLast (p : String) : String :=
  match (splitOnChar '/' p.data).getLast? with
  | some s => ⟨s⟩
  | none => p

/-- Index of the last `'.'` in a character list, if any. -/
def lastDotIdx (cs : List Char) : Option Nat :=
  ((cs.zip (List.range cs.length)).filter (fun x => x.1 = '.')).getLast? |>.map (·.2)

/-- `pathlib.Path(p).stem`: the final component without its suffix.  CPython
keeps the whole name when the last dot is the first or the last character. -/
def pathStem (p : String) : String :=
  let name := pathLast p
  match lastDotIdx name.data with
  | some i => if 0 < i ∧ i < name.data.length - 1 then ⟨name.data.take i⟩ else name
  | none => name

/-- `pathlib.Path(p).suffix` (the extension including the dot, possibly empty). -/
def pathSuffix (p : String) : String :=
  let name := pathLast p
  match lastDotIdx name.data with
  | some i => if 0 < i ∧ i < name.data.length - 1 then ⟨name.data.drop i⟩ else ""
  | none => ""

/-- Byte/lexicographic order on strings, as SQLite's `ORDER BY` on TEXT. -/
def lexLe : List Char → List Char → Bool
  | [], _ => true
  | _ :: _, [] => false
  | a :: as, b :: bs =>
    if a = b then lexLe as bs else decide (a.toNat ≤ b.toNat)

/-! ### Insertion-ordered string dictionaries (Python `dict`) -/

/-- A Python `dict[str, str]` with insertion order: updating an existing key
keeps its position, a new key is appended. -/
abbrev Dict := List (String × String)

def dictGet (d : Dict) (k : String) : Option String :=
  (d.find? (fun kv => kv.1 = k)).map (·.2)

def dictSet (d : Dict) (k v : String) : Dict :=
  if d.any (fun kv => kv.1 = k) then d.map (fun kv => if kv.1 = k then (k, v) else kv)
  else d ++ [(k, v)]

/-- `row.get(col, default)` on a `csv.DictReader` row. -/
def rowGet (row : Dict) (k : String) (dflt : String) : String :=
  match dictGet row k with
  | some v => v
  | none => dflt

/-- Comma-join of the header names (rendering of the Python error message's
header list). -/
def joinHeaders : List String → String
  | [] => ""
  | h :: t => t.foldl (fun acc s => acc ++ ", " ++ s) h

/-- `row.get(col, 0)` where a missing column falls through `safe_int` to 0:
the optional string value of a row cell. -/
def rowGetOpt (row : Dict) (k : String) : Option String := dictGet row k

/-! ## Data model (tables and dataclasses of src/database.py) -/

/-- A row of the `age_groups` table. -/
structure AgeGroup where
  id : Nat
  name : String
  sort_order : Int
deriving Repr, DecidableEq

/-- A row of the `our_teams` table. -/
structure OurTeam where
  id : Nat
  name : String
  age_group_id : Nat
  location : Option String
deriving Repr, DecidableEq

/-- A row of the `seasons` table. -/
structure Season where
  id : Nat
  name : String
  year : Int
  season_type : String
  team_id : Option Nat
deriving Repr, DecidableEq

/-- A row of the `players` table. -/
structure Player where
  id : Nat
  name : String
  jersey_number : Option String
deriving Repr, DecidableEq

/-- A row of the `games` table / the `Game` dataclass. -/
structure Game where
  id : Nat
  season_id : Nat
  game_date : String
  opponent_name : String
  opponent_team_id : Option Nat := none
  win_loss : Option String := none
  runs_for : Option Int := none
  runs_against : Option Int := none
  notes : Option String := none
deriving Repr, DecidableEq

/-- A row of the `batting_stats` table / the `BattingStats` dataclass. -/
structure BattingStats where
  id : Nat
  game_id : Nat
  player_id : Nat
  ab : Int := 0
  r : Int := 0
  h : Int := 0
  rbi : Int := 0
  bb : Int := 0
  so : Int := 0
  hbp : Int := 0
  sac : Int := 0
deriving Repr, DecidableEq

/-- A row of the `pitching_stats` table / the `PitchingStats` dataclass. -/
structure PitchingStats where
  id : Nat
  game_id : Nat
  player_id : Nat
  ip : Rat := 0
  h : Int := 0
  r : Int := 0
  er : Int := 0
  k : Int := 0
  bb : Int := 0
  hbp : Int := 0
  pitches : Int := 0
  strikes : Int := 0
deriving Repr, DecidableEq

/-- Batting average: `self.h / self.ab if self.ab > 0 else 0.0`. -/
def BattingStats.ba (b : BattingStats) : Rat :=
  if b.ab > 0 then (b.h : Rat) / (b.ab : Rat) else 0

/-- On-base percentage: `(h + bb + hbp) / pa if pa > 0 else 0.0` with
`pa = ab + bb + hbp + sac`. -/
def BattingStats.obp (b : BattingStats) : Rat :=
  let pa := b.ab + b.bb + b.hbp + b.sac
  if pa > 0 then ((b.h + b.bb + b.hbp : Int) : Rat) / (pa : Rat) else 0

/-- ERA on a 7-inning scale: `(er * 7) / ip if ip > 0 else 0.0`. -/
def PitchingStats.era (p : PitchingStats) : Rat :=
  if p.ip > 0 then ((p.er : Rat) * 7) / p.ip else 0

/-- WHIP: `(bb + h) / ip if ip > 0 else 0.0`. -/
def PitchingStats.whip (p : PitchingStats) : Rat :=
  if p.ip > 0 then ((p.bb + p.h : Int) : Rat) / p.ip else 0

/-- Strikeouts per inning: `k / ip if ip > 0 else 0.0`. -/
def PitchingStats.k_per_ip (p : PitchingStats) : Rat :=
  if p.ip > 0 then (p.k : Rat) / p.ip else 0

/-- Strike percentage: `strikes / pitches if pitches > 0 else 0.0`. -/
def PitchingStats.strike_pct (p : PitchingStats) : Rat :=
  if p.pitches > 0 then (p.strikes : Rat) / (p.pitches : Rat) else 0

/-- The database state: table contents in rowid order plus the next
AUTOINCREMENT id of each table (SQLite ids start at 1). -/
structure DB where
  age_groups : List AgeGroup := []
  our_teams : List OurTeam := []
  seasons : List Season := []
  players : List Player := []
  games : List Game := []
  batting : List BattingStats := []
  pitching : List PitchingStats := []
  next_age_group_id : Nat := 1
  next_team_id : Nat := 1
  next_season_id : Nat := 1
  next_player_id : Nat := 1
  next_game_id : Nat := 1
  next_batting_id : Nat := 1
  next_pitching_id : Nat := 1
deriving Repr, DecidableEq

/-- The empty database produced by `init_database`. -/
def emptyDB : DB := {}

/-! ## database.py operations -/

/-- `get_or_create_age_group(name, sort_order)`. -/
def get_or_create_age_group (db : DB) (name : String) (sort_order : Int) : Nat × DB :=
  match db.age_groups.find? (fun a => a.name = name) with
  | some a => (a.id, db)
  | none =>
      (db.next_age_group_id,
       { db with age_groups := db.age_groups ++ [⟨db.next_age_group_id, name, sort_order⟩],
                 next_age_group_id := db.next_age_group_id + 1 })

/-- `get_or_create_our_team(name, age_group_id, location)`. -/
def get_or_create_our_team (db : DB) (name : String) (age_group_id : Nat)
    (location : Option String) : Nat × DB :=
  match db.our_teams.find? (fun t => t.name = name && t.age_group_id = age_group_id) with
  | some t => (t.id, db)
  | none =>
      (db.next_team_id,
       { db with our_teams := db.our_teams ++ [⟨db.next_team_id, name, age_group_id, location⟩],
                 next_team_id := db.next_team_id + 1 })

/-- `get_or_create_season(year, season_type, team_id)`.  `if team_id:` is a
truthiness test, so `team_id = None` (and 0) selects the `team_id IS NULL`
lookup.  The season name is `f"{season_type} {str(year)[2:]}"`. -/
def findSeason (db : DB) (year : Int) (season_type : String)
    (team_id : Option Nat) : Option Season :=
  if optNatTruthy team_id then
    db.seasons.find? (fun s => s.year = year && s.season_type = season_type
      && s.team_id = team_id)
  else
    db.seasons.find? (fun s => s.year = year && s.season_type = season_type
      && s.team_id = none)

def get_or_create_season (db : DB) (year : Int) (season_type : String)
    (team_id : Option Nat) : Nat × DB :=
  let name := season_type ++ " " ++ ⟨(toString year).data.drop 2⟩
  match findSeason db year season_type team_id with
  | some s => (s.id, db)
  | none =>
      (db.next_season_id,
       { db with seasons := db.seasons ++ [⟨db.next_season_id, name, year, season_type, team_id⟩],
                 next_season_id := db.next_season_id + 1 })

/-- `get_player_by_name(name)`: first row (rowid order) with that name. -/
def get_player_by_name (db : DB) (name : String) : Option Player :=
  db.players.find? (fun p => p.name = name)

/-- `create_player(name, jersey_number, ...)`. -/
def create_player (db : DB) (name : String) (jersey_number : Option String) : Nat × DB :=
  (db.next_player_id,
   { db with players := db.players ++ [⟨db.next_player_id, name, jersey_number⟩],
             next_player_id := db.next_player_id + 1 })

/-- The name cleaning of database.py `get_or_create_player`: strip, then drop a
trailing `(R)`, `(L)` or `(S)` handedness marker (regex
`^(.+?)\s*\([RLS]\)$`, which requires a non-empty remainder), stripping the
captured group again. -/
def handedSuffix (cs : List Char) : Bool :=
  match cs.reverse with
  | ')' :: h :: '(' :: _ => h = 'R' || h = 'L' || h = 'S'
  | _ => false

def cleanNameDB (name : String) : String :=
  let c := strStrip name
  if strEndsWithChar c ')' then
    let cs := c.data
    if handedSuffix cs && strRStrip ⟨cs.take (cs.length - 3)⟩ ≠ "" then
      strStrip (strRStrip ⟨cs.take (cs.length - 3)⟩)
    else c
  else c

/-- `get_or_create_player(name, jersey_number)`.  Note: the lookup is by the
cleaned name only; the jersey number is used only when inserting. -/
def get_or_create_player (db : DB) (name : String) (jersey_number : Option String) :
    Nat × DB :=
  let clean_name := cleanNameDB name
  match get_player_by_name db clean_name with
  | some p => (p.id, db)
  | none => create_player db clean_name jersey_number

/-- The duplicate lookup of `create_game`: when both scores are known the key
is (season, date, opponent, runs_for, runs_against), otherwise
(season, date, opponent). -/
def findExistingGame (db : DB) (season_id : Nat) (game_date opponent_name : String)
    (runs_for runs_against : Option Int) : Option Game :=
  match runs_for, runs_against with
  | some rf, some ra =>
      db.games.find? (fun g => g.season_id = season_id && g.game_date = game_date
        && g.opponent_name = opponent_name && g.runs_for = some rf && g.runs_against = some ra)
  | _, _ =>
      db.games.find? (fun g => g.season_id = season_id && g.game_date = game_date
        && g.opponent_name = opponent_name)

/-- SQL `COALESCE(?, col)`: the caller-supplied value wins when non-null. -/
def coalesce {α : Type} (new old : Option α) : Option α :=
  match new with
  | some v => some v
  | none => old

/-- `create_game(...)`: upsert on the game identity key.  On a hit the row is
updated with `COALESCE(new, old)` per field and the existing id returned; on a
miss a fresh row is inserted. -/
def create_game (db : DB) (season_id : Nat) (game_date opponent_name : String)
    (win_loss : Option String := none) (runs_for : Option Int := none)
    (runs_against : Option Int := none) (opponent_team_id : Option Nat := none)
    (notes : Option String := none) : Nat × DB :=
  match findExistingGame db season_id game_date opponent_name runs_for runs_against with
  | some g =>
      (g.id,
       { db with games := db.games.map (fun x =>
           if x.id = g.id then
             { x with win_loss := coalesce win_loss x.win_loss,
                      runs_for := coalesce runs_for x.runs_for,
                      runs_against := coalesce runs_against x.runs_against,
                      opponent_team_id := coalesce opponent_team_id x.opponent_team_id,
                      notes := coalesce notes x.notes }
           else x) })
  | none =>
      (db.next_game_id,
       { db with
           games := db.games ++
             [{ id := db.next_game_id, season_id := season_id, game_date := game_date,
                opponent_name := opponent_name, opponent_team_id := opponent_team_id,
                win_loss := win_loss, runs_for := runs_for, runs_against := runs_against,
                notes := notes }],
           next_game_id := db.next_game_id + 1 })

/-- Stable insertion into a date-sorted game list (ties keep earlier rows
first), modelling `ORDER BY game_date` on TEXT. -/
def insertByDate (g : Game) : List Game → List Game
  | [] => [g]
  | h :: t =>
      if lexLe g.game_date.data h.game_date.data then g :: h :: t
      else h :: insertByDate g t

/-- Stable sort of games by `game_date`. -/
def sortByDate : List Game → List Game
  | [] => []
  | g :: rest => insertByDate g (sortByDate rest)

/-- `get_games_by_season(season_id)`: the season's games ordered by date. -/
def get_games_by_season (db : DB) (season_id : Nat) : List Game :=
  sortByDate (db.games.filter (fun g => g.season_id = season_id))

/-- `add_batting_stats(...)`: `INSERT OR REPLACE` keyed on the UNIQUE
(game_id, player_id) pair; the replacement row receives a fresh rowid at the
end of the table. -/
def add_batting_stats (db : DB) (game_id player_id : Nat)
    (ab r h rbi bb so hbp sac : Int) : Nat × DB :=
  (db.next_batting_id,
   { db with
       batting := db.batting.filter
           (fun x => !(x.game_id = game_id && x.player_id = player_id)) ++
         [{ id := db.next_batting_id, game_id := game_id, player_id := player_id,
            ab := ab, r := r, h := h, rbi := rbi, bb := bb, so := so, hbp := hbp, sac := sac }],
       next_batting_id := db.next_batting_id + 1 })

/-- `add_pitching_stats(...)`: `INSERT OR REPLACE` keyed on the UNIQUE
(game_id, player_id) pair. -/
def add_pitching_stats (db : DB) (game_id player_id : Nat) (ip : Rat)
    (h r er k bb hbp pitches strikes : Int) : Nat × DB :=
  (db.next_pitching_id,
   { db with
       pitching := db.pitching.filter
           (fun x => !(x.game_id = game_id && x.player_id = player_id)) ++
         [{ id := db.next_pitching_id, game_id := game_id, player_id := player_id,
            ip := ip, h := h, r := r, er := er, k := k, bb := bb, hbp := hbp,
            pitches := pitches, strikes := strikes }],
       next_pitching_id := db.next_pitching_id + 1 })

/-! ## Shared coercion helpers (duplicated verbatim in import_csv.py and
importer.py) -/

/-- Truncation of a rational toward zero, as Python `int(float)`. -/
def ratTruncToInt (q : Rat) : Int := if q ≥ 0 then q.floor else -((-q).floor)

/-- Decimal part of Python `float(s)` without sign: digits, optionally followed
by a dot and digits.  (Exponent and inf/nan forms are not used by the data
treated here.) -/
def parseUnsignedQ (cs : List Char) : Option Rat :=
  let intPart := cs.takeWhile Char.isDigit
  let rest := cs.dropWhile Char.isDigit
  match rest with
  | [] => if intPart.isEmpty then none else some ((digitsToNat intPart : Rat))
  | '.' :: frac =>
      if frac.all Char.isDigit && !(intPart.isEmpty && frac.isEmpty) then
        some ((digitsToNat intPart : Rat) + (digitsToNat frac : Rat) / ((10 : Rat) ^ frac.length))
      else none
  | _ => none

/-- Python `float(s)` on a string (surrounding whitespace allowed, optional
sign), `none` when `float` would raise `ValueError`. -/
def pyFloatOfStr (s : String) : Option Rat :=
  match stripList s.data with
  | '-' :: rest => (parseUnsignedQ rest).map (fun q => -q)
  | '+' :: rest => parseUnsignedQ rest
  | cs => parseUnsignedQ cs

/-- `safe_int(val)` applied to an optional row cell: `None`/`''` give 0,
otherwise `int(float(val))`, and 0 on any conversion error. -/
def safe_int (v : Option String) : Int :=
  match v with
  | none => 0
  | some s =>
      if s = "" then 0
      else
        match pyFloatOfStr s with
        | some q => ratTruncToInt q
        | none => 0

/-- Python `str.isdigit()` restricted to ASCII digits. -/
def pyIsdigit (s : String) : Bool := !s.data.isEmpty && s.data.all Char.isDigit

/-- `int(s)` for a decimal digit string (callers check `isdigit()` first;
`int` itself tolerates surrounding whitespace). -/
def pyIntOfDigits (s : String) : Int := (digitsToNat (stripList s.data) : Int)

/-! ## parse_filename_for_game_info (identical in import_csv.py and
importer.py) -/

/-- The result dictionary of `parse_filename_for_game_info`. -/
structure FileInfo where
  game_date : Option String := none
  opponent : Option String := none
  game_num : Option Nat := none
deriving Repr, DecidableEq

/-- Month-abbreviation table of `parse_filename_for_game_info`. -/
def monthsMap : List (String × Nat) :=
  [("jan", 1), ("feb", 2), ("mar", 3), ("apr", 4), ("may", 5), ("jun", 6),
   ("jul", 7), ("aug", 8), ("sep", 9), ("oct", 10), ("nov", 11), ("dec", 12)]

/-- The anchored match of `re.match(r'game(\d+)_([a-z]+)(\d+)_(.+)', name,
re.IGNORECASE)`: the literal `game` (any case), a digit run, `_`, a letter
run, a digit run, `_`, and a non-empty remainder.  Greedy matching of each
run is equivalent to the regex here because each character class is disjoint
from the following required literal. -/
def matchGamePattern (cs : List Char) : Option (List Char × List Char × List Char × List Char) :=
  match dropLitCI ['g', 'a', 'm', 'e'] cs with
  | none => none
  | some rest =>
      let ds := rest.takeWhile Char.isDigit
      let rest1 := rest.dropWhile Char.isDigit
      if ds.isEmpty then none
      else
        match rest1 with
        | '_' :: rest2 =>
            let ls := rest2.takeWhile Char.isAlpha
            let rest3 := rest2.dropWhile Char.isAlpha
            if ls.isEmpty then none
            else
              let ds2 := rest3.takeWhile Char.isDigit
              let rest4 := rest3.dropWhile Char.isDigit
              if ds2.isEmpty then none
              else
                match rest4 with
                | '_' :: rest5 => if rest5.isEmpty then none else some (ds, ls, ds2, rest5)
                | _ => none
        | _ => none

/-- `parse_filename_for_game_info(filename)`: matches the stem against the
single `game<N>_<month><day>_<opponent>` pattern.  On a regex match the game
number and title-cased opponent are always filled in; the date is filled in
only when the first three letters of the month group are a known month
abbreviation. -/
def parse_filename_for_game_info (filename : String) : FileInfo :=
  let name := pathStem filename
  match matchGamePattern name.data with
  | none => {}
  | some (ds, ls, ds2, rest) =>
      let game_num := some (digitsToNat ds)
      let opponent := some (pyTitle (strReplaceChar ⟨rest⟩ '_' ' '))
      let month_str := strLower ⟨ls⟩
      let game_date :=
        match (monthsMap.find? (fun kv => kv.1 = ⟨month_str.data.take 3⟩)).map (·.2) with
        | some m => some (toString m ++ "/" ++ (⟨ds2⟩ : String))
        | none => none
      { game_date := game_date, opponent := opponent, game_num := game_num }

/-- `GAMECHANGER_COLUMN_MAP` (identical in both importer modules). -/
def GAMECHANGER_COLUMN_MAP : Dict :=
  [("BoxScoreComponents__playerName", "player_name"),
   ("ag-cell", "ab"), ("ag-cell 2", "r"), ("ag-cell 3", "h"),
   ("ag-cell 4", "rbi"), ("ag-cell 5", "bb"), ("ag-cell 6", "so")]

/-- `{v: k for k, v in col_map.items()}`: reversal where a later pair wins. -/
def reverseMap (m : Dict) : Dict :=
  m.foldl (fun acc kv => dictSet acc kv.2 kv.1) []

/-- The fuzzy duplicate-game test of import_csv.py: same date, and the
lowercased space-stripped opponent names contain one another (either way). -/
def fuzzyPred (game_date opponent : String) (g : Game) : Bool :=
  let existing_opp := strRemoveChar (strLower g.opponent_name) ' '
  let new_opp := strRemoveChar (strLower opponent) ' '
  g.game_date = game_date && (pyIn existing_opp new_opp || pyIn new_opp existing_opp)

/-! ## src/import_csv.py -/

namespace ImportCsv

/-- `STANDARD_COLUMN_MAP` of import_csv.py (player stats only). -/
def STANDARD_COLUMN_MAP : Dict :=
  [("player", "player_name"), ("player_name", "player_name"), ("name", "player_name"),
   ("playername", "player_name"),
   ("ab", "ab"), ("atbats", "ab"), ("at_bats", "ab"),
   ("r", "r"), ("runs", "r"),
   ("h", "h"), ("hits", "h"),
   ("rbi", "rbi"), ("rbis", "rbi"),
   ("bb", "bb"), ("walks", "bb"), ("walk", "bb"),
   ("so", "so"), ("k", "so"), ("strikeouts", "so"), ("strikeout", "so"),
   ("hbp", "hbp"), ("hitbypitch", "hbp"),
   ("sac", "sac"), ("sacrifice", "sac")]

/-- `detect_csv_format(headers)` of import_csv.py. -/
def detect_csv_format (headers : List String) : String × Dict :=
  if headers.contains "BoxScoreComponents__playerName" || headers.contains "ag-cell" then
    ("gamechanger",
     GAMECHANGER_COLUMN_MAP.foldl
       (fun m kv => if headers.contains kv.1 then dictSet m kv.1 kv.2 else m) [])
  else
    let headers_lower := headers.map (fun h => strStrip (strLower h))
    let col_map := STANDARD_COLUMN_MAP.foldl
      (fun m kv =>
        match (headers.zip headers_lower).find? (fun p => p.2 = kv.1) with
        | some p => dictSet m p.1 kv.2
        | none => m) []
    if !col_map.isEmpty then ("standard", col_map) else ("unknown", [])

/-- The import result dictionary of import_csv.py. -/
structure CsvResult where
  game_id : Option Nat := none
  stats_imported : Nat := 0
  errors : List String := []
deriving Repr, DecidableEq

/-- The game date after the filename fallback and the `"Unknown"` default of
import_csv.py (lines 169-178). -/
def resolvedDate (path : String) (game_date : Option String) : String :=
  let gd := if optTruthy game_date then game_date
            else (parse_filename_for_game_info path).game_date
  if optTruthy gd then gd.getD "" else "Unknown"

/-- The opponent after the filename fallback and the filename-stem default of
import_csv.py (lines 169-180). -/
def resolvedOpp (path : String) (opponent : Option String) : String :=
  let o := if optTruthy opponent then opponent
           else (parse_filename_for_game_info path).opponent
  if optTruthy o then o.getD "" else pathStem path

/-- The player name of one data row: `row.get(player_col, '').strip()` when a
player column was detected, else `''`. -/
def csvRowName (player_col : Option String) (row : Dict) : String :=
  if optTruthy player_col then strStrip (rowGet row (player_col.getD "") "")
  else ""

/-- One coerced stat cell: `safe_int(row.get(reverse_map.get(f, ''), 0))`. -/
def csvStat (rm : Dict) (row : Dict) (f : String) : Int :=
  safe_int (rowGetOpt row ((dictGet rm f).getD ""))

/-- The per-row body of the stats loop of import_csv.py: skip empty names,
resolve the player by name, upsert one batting line. -/
def processRow (rm : Dict) (player_col : Option String) (game_id : Nat)
    (acc : Nat × DB) (row : Dict) : Nat × DB :=
  let name := csvRowName player_col row
  if name = "" then acc
  else
    let r1 := get_or_create_player acc.2 name none
    let r2 := add_batting_stats r1.2 game_id r1.1 (csvStat rm row "ab") (csvStat rm row "r")
      (csvStat rm row "h") (csvStat rm row "rbi") (csvStat rm row "bb") (csvStat rm row "so")
      (csvStat rm row "hbp") (csvStat rm row "sac")
    (acc.1 + 1, r2.2)

/-- The stats loop of import_csv.py over all data rows. -/
def processRows (rm : Dict) (player_col : Option String) (game_id : Nat)
    (rows : List Dict) (db : DB) : Nat × DB :=
  rows.foldl (processRow rm player_col game_id) (0, db)

/-- The team-runs fallback of import_csv.py (lines 214-216): the sum of the
coerced runs column over all data rows, 0 when no runs column was mapped. -/
def totalRuns (rm : Dict) (rows : List Dict) : Int :=
  if optTruthy (dictGet rm "r") then
    (rows.map (fun row => safe_int (rowGetOpt row ((dictGet rm "r").getD "")))).sum
  else 0

/-- The game-resolution step of import_csv.py (lines 218-248): look for an
existing game of the season on the same date with a fuzzily matching
opponent; only when none matches, create a new game carrying the summed
runs and the import note. -/
def gameStep (db : DB) (path : String) (format_type : String) (season_id : Nat)
    (game_date opponent : String) (total_runs : Int) : Nat × DB :=
  match (get_games_by_season db season_id).find? (fuzzyPred game_date opponent) with
  | some g => (g.id, db)
  | none =>
      create_game db season_id game_date opponent none (some total_runs) none none
        (some ("Imported from CSV (" ++ format_type ++ "): " ++ pathLast path))

/-- `import_gamechanger_csv(file_path, season_id, game_date, opponent)` of
import_csv.py, over the parsed `csv.DictReader` rows of the file. -/
def import_gamechanger_csv (db : DB) (path : String) (rows : List Dict)
    (season_id : Nat) (game_date : Option String := none)
    (opponent : Option String := none) : CsvResult × DB :=
  let gd := resolvedDate path game_date
  let opp := resolvedOpp path opponent
  match rows with
  | [] => ({ errors := ["CSV file is empty"] }, db)
  | r0 :: _ =>
      let headers := r0.map (·.1)
      let fm := detect_csv_format headers
      if fm.1 = "unknown" || fm.2.isEmpty then
        ({ errors := ["Could not detect CSV format. Headers found: " ++
             joinHeaders headers] }, db)
      else
        let rm := reverseMap fm.2
        let gstep := gameStep db path fm.1 season_id gd opp (totalRuns rm rows)
        let pstep := processRows rm (dictGet rm "player_name") gstep.1 rows gstep.2
        ({ game_id := some gstep.1, stats_imported := pstep.1, errors := [] }, pstep.2)

end ImportCsv

/-! ## src/importer.py -/

namespace Importer

/-- `safe_int(val)` of importer.py on a worksheet cell value. -/
def safe_int_py : PyVal → Int
  | .pnone => 0
  | .pstr s =>
      if s = "" then 0
      else
        match pyFloatOfStr s with
        | some q => ratTruncToInt q
        | none => 0
  | .pint n => n
  | .pfloat q => ratTruncToInt q
  | .pbool b => if b then 1 else 0

/-- `safe_float(val)` of importer.py on a worksheet cell value. -/
def safe_float_py : PyVal → Rat
  | .pnone => 0
  | .pstr s =>
      match pyFloatOfStr s with
      | some q => q
      | none => 0
  | .pint n => (n : Rat)
  | .pfloat q => q
  | .pbool b => if b then 1 else 0

/-- `str(val)` on a dynamically typed value.  The decimal rendering of floats
is exact when the denominator divides a power of ten (which covers the
whole-number cell values that reach `str` in the sheets treated here). -/
def pyStr : PyVal → String
  | .pnone => "None"
  | .pstr s => s
  | .pbool true => "True"
  | .pbool false => "False"
  | .pint n => toString n
  | .pfloat q =>
      if q.den = 1 then toString q.num ++ ".0"
      else
        match (List.range 64).find? (fun k => (10 : Nat) ^ k % q.den = 0) with
        | some k =>
            let scaled := (q * ((10 : Rat) ^ k)).num
            let sign := if scaled < 0 then "-" else ""
            let digits := toString scaled.natAbs
            let padded :=
              if digits.data.length ≤ k then
                ⟨List.replicate (k + 1 - digits.data.length) '0' ++ digits.data⟩
              else digits
            let cut := padded.data.length - k
            sign ++ (⟨padded.data.take cut⟩ : String) ++ "." ++ (⟨padded.data.drop cut⟩ : String)
        | none => toString q.num ++ "div" ++ toString q.den

/-- A value converted to `Option String` when stored into a nullable TEXT
column (the raw W/L worksheet cell passed to `create_game`). -/
def pyToOptStr : PyVal → Option String
  | .pnone => none
  | v => some (pyStr v)

/-- `format_jersey(val)`: `None`/`''` give `None`; header literals give
`None`; otherwise `str(int(float(val)))`, falling back to the stripped string
form when the conversion fails. -/
def format_jersey (val : PyVal) : Option String :=
  match val with
  | .pnone => none
  | v =>
      if v = .pstr "" then none
      else
        let str_val := strStrip (pyStr v)
        if ["#", "NO", "NO.", "NUM", "NUMBER", "JERSEY"].contains (strUpper str_val) then none
        else
          let conv : Option Rat :=
            match v with
            | .pstr s => pyFloatOfStr s
            | .pint n => some (n : Rat)
            | .pfloat q => some q
            | .pbool b => some (if b then 1 else 0)
            | .pnone => none
          match conv with
          | some q => some (toString (ratTruncToInt q))
          | none => if str_val ≠ "" then some str_val else none

/-- `clean_player_name(name)`: header literals give `""`; otherwise the
trailing `\s*\([RLS]\)\s*$` marker is removed (unconditionally, unlike the
database.py variant) and the result stripped. -/
def clean_player_name (v : PyVal) : String :=
  if !v.truthy then ""
  else
    let name := strStrip (pyStr v)
    if ["PLAYER", "NAME", "PLAYERS", "#", ""].contains (strUpper name) then ""
    else
      let subbed :=
        let base := strRStrip name
        if strEndsWithChar base ')' && handedSuffix base.data then
          strRStrip ⟨base.data.take (base.data.length - 3)⟩
        else name
      strStrip subbed

/-- `is_header_or_invalid_player(name, jersey)`. -/
def is_header_or_invalid_player (name jersey : PyVal) : Bool :=
  if !name.truthy then true
  else
    let name_upper := strUpper (strStrip (pyStr name))
    if ["PLAYER", "NAME", "PLAYERS", "TOTALS", "#", ""].contains name_upper then true
    else
      match jersey with
      | .pnone => false
      | j =>
          let jersey_str := strUpper (strStrip (pyStr j))
          ["#", "NO", "NO.", "NUM", "NUMBER", "JERSEY"].contains jersey_str

/-- `STANDARD_COLUMN_MAP` of importer.py (player stats plus game metadata). -/
def STANDARD_COLUMN_MAP : Dict :=
  [("player", "player_name"), ("player_name", "player_name"), ("name", "player_name"),
   ("playername", "player_name"),
   ("ab", "ab"), ("atbats", "ab"), ("at_bats", "ab"),
   ("r", "r"), ("runs", "r"),
   ("h", "h"), ("hits", "h"),
   ("rbi", "rbi"), ("rbis", "rbi"),
   ("bb", "bb"), ("walks", "bb"), ("walk", "bb"),
   ("so", "so"), ("k", "so"), ("strikeouts", "so"), ("strikeout", "so"),
   ("hbp", "hbp"), ("hitbypitch", "hbp"),
   ("sac", "sac"), ("sacrifice", "sac"),
   ("date", "game_date"), ("game_date", "game_date"), ("gamedate", "game_date"),
   ("time", "game_time"), ("game_time", "game_time"), ("gametime", "game_time"),
   ("start_time", "game_time"),
   ("opponent", "opponent"), ("opp", "opponent"), ("vs", "opponent"),
   ("opposing_team", "opponent"),
   ("result", "win_loss"), ("w/l", "win_loss"), ("wl", "win_loss"),
   ("win_loss", "win_loss"), ("outcome", "win_loss"),
   ("rf", "runs_for"), ("runs_for", "runs_for"), ("runsfor", "runs_for"),
   ("our_score", "runs_for"), ("score", "runs_for"), ("us", "runs_for"),
   ("ra", "runs_against"), ("runs_against", "runs_against"), ("runsagainst", "runs_against"),
   ("opp_score", "runs_against"), ("their_score", "runs_against"), ("them", "runs_against")]

/-- `detect_csv_format(headers)` of importer.py. -/
def detect_csv_format (headers : List String) : String × Dict :=
  if headers.contains "BoxScoreComponents__playerName" || headers.contains "ag-cell" then
    ("gamechanger",
     GAMECHANGER_COLUMN_MAP.foldl
       (fun m kv => if headers.contains kv.1 then dictSet m kv.1 kv.2 else m) [])
  else
    let headers_lower := headers.map (fun h => strStrip (strLower h))
    let col_map := STANDARD_COLUMN_MAP.foldl
      (fun m kv =>
        match (headers.zip headers_lower).find? (fun p => p.2 = kv.1) with
        | some p => dictSet m p.1 kv.2
        | none => m) []
    if !col_map.isEmpty then ("standard", col_map) else ("unknown", [])

/-- A stripped non-empty metadata cell of the first data row:
`first_row.get(reverse_map[f], '').strip()` when field `f` was mapped. -/
def metaCell (rm : Dict) (first_row : Dict) (f : String) : Option String :=
  match dictGet rm f with
  | some c =>
      let v := strStrip (rowGet first_row c "")
      if v ≠ "" then some v else none
  | none => none

/-- The detected win/loss value: uppercased, accepted only from the fixed
list, normalized to its first letter. -/
def wlCell (rm : Dict) (first_row : Dict) : Option String :=
  match dictGet rm "win_loss" with
  | some c =>
      let v := strUpper (strStrip (rowGet first_row c ""))
      if ["W", "L", "T", "WIN", "LOSS", "TIE"].contains v then some ⟨v.data.take 1⟩
      else none
  | none => none

/-- A detected runs value: accepted when the cell is non-empty and its
stripped form is all digits. -/
def runsCell (rm : Dict) (first_row : Dict) (f : String) : Option Int :=
  match dictGet rm f with
  | some c =>
      let v := rowGet first_row c ""
      if v ≠ "" && pyIsdigit (strStrip v) then some (pyIntOfDigits v) else none
  | none => none

/-- The game date after the CSV-column step of importer.py (lines 347-352). -/
def dateAfterCsv (game_date : PyVal) (rm : Dict) (first_row : Dict) : PyVal :=
  match metaCell rm first_row "game_date" with
  | some v => if !game_date.truthy then .pstr v else game_date
  | none => game_date

/-- The game date after the CSV-column step and the filename fallback of
importer.py (lines 347-352 and 395-400): the full resolution chain for the
required field. -/
def resolvedDateU (game_date : PyVal) (rm : Dict) (first_row : Dict) (path : String) : PyVal :=
  let gd1 := dateAfterCsv game_date rm first_row
  match (parse_filename_for_game_info path).game_date with
  | some d => if !gd1.truthy then .pstr d else gd1
  | none => gd1

/-- The import result dictionary of importer.py `import_gamechanger_csv`. -/
structure ImpResult where
  file_type : String := ""
  game_id : Option Nat := none
  stats_imported : Nat := 0
  detected_fields : List (String × PyVal) := []
  missing_fields : List String := []
  errors : List String := []
deriving Repr, DecidableEq

/-- The Python `TypeError` raised by the `create_game(...)` call of
importer.py line 442: the call passes a `game_time` keyword argument, but
`database.create_game` has no such parameter, so the call raises before the
function body (and hence before any database write) runs. -/
def createGameTypeError : String :=
  "TypeError: create_game() got an unexpected keyword argument 'game_time'"

/-- `import_gamechanger_csv(...)` of importer.py, over the parsed
`csv.DictReader` rows.  A `.error` value models an uncaught Python
exception, paired with the database state at raise time. -/
def import_gamechanger_csv (db : DB) (path : String) (rows : List Dict)
    (season_id : Nat) (game_date : PyVal := .pnone) (game_time : Option String := none)
    (opponent : Option String := none) (win_loss : Option String := none)
    (runs_for : Option Int := none) (runs_against : Option Int := none) :
    Except String ImpResult × DB :=
  match rows with
  | [] => (.ok { errors := ["CSV file is empty"] }, db)
  | r0 :: _ =>
      let headers := r0.map (·.1)
      let fm := detect_csv_format headers
      if fm.1 = "unknown" || fm.2.isEmpty then
        (.ok { errors := ["Could not detect CSV format. Headers found: " ++
            joinHeaders headers] }, db)
      else
        let rm := reverseMap fm.2
        let dDate := metaCell rm r0 "game_date"
        let dTime := metaCell rm r0 "game_time"
        let dOpp := metaCell rm r0 "opponent"
        let dWl := wlCell rm r0
        let dRf := runsCell rm r0 "runs_for"
        let dRa := runsCell rm r0 "runs_against"
        let gd1 := dateAfterCsv game_date rm r0
        let gt1 := match dTime with
          | some v => if !optTruthy game_time then some v else game_time
          | none => game_time
        let op1 := match dOpp with
          | some v => if !optTruthy opponent then some v else opponent
          | none => opponent
        let wl1 := match dWl with
          | some v => if !optTruthy win_loss then some v else win_loss
          | none => win_loss
        let rf1 := match dRf with
          | some v => if runs_for = none then some v else runs_for
          | none => runs_for
        let ra1 := match dRa with
          | some v => if runs_against = none then some v else runs_against
          | none => runs_against
        let fi := parse_filename_for_game_info path
        let gd2 := resolvedDateU game_date rm r0 path
        let op2 := match fi.opponent with
          | some o => if !optTruthy op1 then some o else op1
          | none => op1
        let detected : List (String × PyVal) :=
          (match dDate with | some v => [("game_date", PyVal.pstr v)] | none => []) ++
          (match dTime with | some v => [("game_time", PyVal.pstr v)] | none => []) ++
          (match dOpp with | some v => [("opponent", PyVal.pstr v)] | none => []) ++
          (match dWl with | some v => [("win_loss", PyVal.pstr v)] | none => []) ++
          (match dRf with | some v => [("runs_for", PyVal.pint v)] | none => []) ++
          (match dRa with | some v => [("runs_against", PyVal.pint v)] | none => []) ++
          (match fi.game_date with
           | some d => if !gd1.truthy then [("game_date_from_filename", PyVal.pstr d)] else []
           | none => []) ++
          (match fi.opponent with
           | some o => if !optTruthy op1 then [("opponent_from_filename", PyVal.pstr o)] else []
           | none => [])
        let missing : List String :=
          (if !gd2.truthy then ["game_date"] else []) ++
          (if !optTruthy gt1 then ["game_time"] else []) ++
          (if !optTruthy op2 then ["opponent"] else []) ++
          (if wl1 = none then ["win_loss"] else []) ++
          (if rf1 = none then ["runs_for"] else []) ++
          (if ra1 = none then ["runs_against"] else [])
        if !gd2.truthy then
          (.ok { detected_fields := detected, missing_fields := missing,
                 errors := ["Game date is required. Please provide a date for this game."] }, db)
        else
          -- The remaining source lines default the opponent to the filename stem,
          -- sum the runs column when runs_for is still None, and then call
          -- database.create_game with a game_time keyword argument.  That call
          -- raises TypeError (see createGameTypeError) before touching the
          -- database, so the stats loop below it is unreachable.
          (.error createGameTypeError, db)

/-! ### Excel structure extractor -/

/-- A worksheet: `ws.cell(row, column).value`. -/
abbrev Ws := Nat → Nat → PyVal

/-- An insertion-ordered Python `dict` with arbitrary values. -/
def pyDictSet {α : Type} (d : List (String × α)) (k : String) (v : α) :
    List (String × α) :=
  if d.any (fun kv => kv.1 = k) then d.map (fun kv => if kv.1 = k then (k, v) else kv)
  else d ++ [(k, v)]

/-- `parse_season_from_text`: the leftmost occurrence of
`(FALL|SPRING)\s+(\d{4})` in the uppercased text. -/
def seasonAt (cs : List Char) : Option (String × Nat) :=
  let kw : Option (String × List Char) :=
    match dropLit "FALL".data cs with
    | some rest => some ("FALL", rest)
    | none =>
        match dropLit "SPRING".data cs with
        | some rest => some ("SPRING", rest)
        | none => none
  match kw with
  | none => none
  | some (k, rest) =>
      let ws1 := rest.takeWhile isWs
      let rest2 := rest.dropWhile isWs
      if ws1.isEmpty then none
      else
        let ds := rest2.takeWhile Char.isDigit
        if ds.length ≥ 4 then some (k, digitsToNat (ds.take 4)) else none

def searchSeason : List Char → Option (String × Nat)
  | [] => none
  | c :: rest =>
      match seasonAt (c :: rest) with
      | some r => some r
      | none => searchSeason rest

/-- `parse_season_from_text(text)`. -/
def parse_season_from_text (text : String) : Option (String × Int) :=
  if text = "" then none
  else
    match searchSeason (strUpper text).data with
    | some (k, y) => some (pyCapitalize k, (y : Int))
    | none => none

/-- The anchored match of `^(\d{1,2}/\d{1,2})\s+vs\.?\s+(.+)$`. -/
def gameEntryMatch (cs : List Char) : Option (String × String) :=
  let d1 := cs.takeWhile Char.isDigit
  let r1 := cs.dropWhile Char.isDigit
  if d1.length < 1 || d1.length > 2 then none
  else
    match r1 with
    | '/' :: r2 =>
        let d2 := r2.takeWhile Char.isDigit
        let r3 := r2.dropWhile Char.isDigit
        if d2.length < 1 || d2.length > 2 then none
        else
          let ws1 := r3.takeWhile isWs
          let r4 := r3.dropWhile isWs
          if ws1.isEmpty then none
          else
            match dropLit "vs".data r4 with
            | none => none
            | some r5 =>
                let r6 := match r5 with | '.' :: t => t | _ => r5
                let ws2 := r6.takeWhile isWs
                let r7 := r6.dropWhile isWs
                if ws2.isEmpty then none
                else if r7.isEmpty then none
                else some (⟨d1 ++ '/' :: d2⟩, ⟨r7⟩)
    | _ => none

/-- `parse_game_entry(text)`: date and stripped opponent, or nothing. -/
def parse_game_entry (v : PyVal) : Option (String × String) :=
  if !v.truthy then none
  else
    match gameEntryMatch (stripList (pyStr v).data) with
    | some (d, o) => some (d, strStrip o)
    | none => none

/-- The team-info dictionary of `extract_team_info`. -/
structure TeamInfo where
  team_name : Option String := none
  age_group : Option String := none
  location : Option String := none
  full_name : Option String := none
deriving Repr, DecidableEq

/-- Text after the first `:` (`s.split(':', 1)[1]`). -/
def splitAfterColon (s : String) : String :=
  ⟨(s.data.dropWhile (fun c => c ≠ ':')).drop 1⟩

/-- One position of the `(\d{1,2}U)` age-group search (two digits preferred,
case-insensitive `U`, result uppercased). -/
def ageAt (cs : List Char) : Option String :=
  match cs with
  | a :: b :: u :: _ =>
      if a.isDigit && b.isDigit && (u = 'U' || u = 'u') then some ⟨[a, b, 'U']⟩
      else if a.isDigit && (b = 'U' || b = 'u') then some ⟨[a, 'U']⟩
      else none
  | a :: b :: _ =>
      if a.isDigit && (b = 'U' || b = 'u') then some ⟨[a, 'U']⟩ else none
  | _ => none

def searchAge : List Char → Option String
  | [] => none
  | c :: rest =>
      match ageAt (c :: rest) with
      | some r => some r
      | none => searchAge rest

/-- `extract_team_info(ws)`: scan column 1 of rows 1-9 for the labelled
team-name and location markers. -/
def extract_team_info (ws : Ws) : TeamInfo :=
  (List.range' 1 9).foldl
    (fun ti row =>
      let cell_val := ws row 1
      if !cell_val.truthy then ti
      else
        let cell_str := strStrip (pyStr cell_val)
        if pyIn "TEAM NAME:" (strUpper cell_str) then
          let full_name := strStrip (splitAfterColon cell_str)
          { ti with
              full_name := some full_name,
              team_name := some full_name,
              age_group :=
                match searchAge full_name.data with
                | some a => some a
                | none => ti.age_group }
        else if pyIn "LOCATION:" (strUpper cell_str) then
          { ti with location := some (strStrip (splitAfterColon cell_str)) }
        else ti)
    {}

/-- `get_or_create_team_from_info(team_info)`. -/
def get_or_create_team_from_info (db : DB) (ti : TeamInfo) : Option Nat × DB :=
  if !optTruthy ti.age_group || !optTruthy ti.team_name then (none, db)
  else
    let age_group := ti.age_group.getD ""
    let sort_order : Int := (digitsToNat (stripList (strRemoveChar age_group 'U').data) : Int)
    let r1 := get_or_create_age_group db age_group sort_order
    let r2 := get_or_create_our_team r1.2 (ti.team_name.getD "") r1.1 ti.location
    (some r2.1, r2.2)

/-- A pitching-roster entry collected from a sheet. -/
structure PitchRec where
  jersey : PyVal
  app : Int
  ip : Rat
  h : Int
  r : Int
  k : Int
  bb : Int
  hbp : Int
  pitches : Int
  strikes : Int
deriving Repr, DecidableEq

/-- A batting-roster entry collected from a sheet. -/
structure BatRec where
  jersey : PyVal
  ab : Int
  r : Int
  h : Int
  rbi : Int
  bb : Int
  so : Int
deriving Repr, DecidableEq

/-- The local collection state of a sheet scan: game tuples
(date, opponent, w/l cell, runs for, runs against) plus the two
player dictionaries. -/
structure SheetAcc where
  games : List (String × String × PyVal × Int × Int) := []
  pitching_players : List (String × PitchRec) := []
  batting_players : List (String × BatRec) := []

/-- One row of the single-season ("Fall" sheet) scan: game results in
columns 1-4, pitching block with name column 8, batting block with name
column 26. -/
def fallCollectRow (ws : Ws) (row : Nat) (acc : SheetAcc) : SheetAcc :=
  let game_entry := ws row 1
  let acc :=
    match parse_game_entry game_entry with
    | some (game_date, opponent) =>
        if game_date ≠ "" && opponent ≠ "" then
          { acc with games := acc.games ++
              [(game_date, opponent, ws row 2, safe_int_py (ws row 3), safe_int_py (ws row 4))] }
        else acc
    | none => acc
  let pitcher_name_raw := ws row 8
  let pitcher_jersey_raw := ws row 7
  let pitcher_name := clean_player_name pitcher_name_raw
  let pitchRec : PitchRec :=
    { jersey := pitcher_jersey_raw,
      app := safe_int_py (ws row 9), ip := safe_float_py (ws row 10),
      h := safe_int_py (ws row 11), r := safe_int_py (ws row 13),
      k := safe_int_py (ws row 15), bb := safe_int_py (ws row 17),
      hbp := safe_int_py (ws row 20), pitches := safe_int_py (ws row 21),
      strikes := safe_int_py (ws row 22) }
  let acc :=
    if pitcher_name ≠ "" && !is_header_or_invalid_player pitcher_name_raw pitcher_jersey_raw then
      { acc with pitching_players := pyDictSet acc.pitching_players pitcher_name pitchRec }
    else acc
  let batter_name_raw := ws row 26
  let batter_jersey_raw := ws row 25
  let batter_name := clean_player_name batter_name_raw
  let batRec : BatRec :=
    { jersey := batter_jersey_raw,
      ab := safe_int_py (ws row 27), r := safe_int_py (ws row 28),
      h := safe_int_py (ws row 29), rbi := safe_int_py (ws row 30),
      bb := safe_int_py (ws row 31), so := safe_int_py (ws row 32) }
  if batter_name ≠ "" && !is_header_or_invalid_player batter_name_raw batter_jersey_raw then
    { acc with batting_players := pyDictSet acc.batting_players batter_name batRec }
  else acc

/-- The `while row < 500` scan of `import_fall_sheet`, with the 4-row
lookahead stop condition; `fuel` bounds the recursion (500 suffices from the
start row 9). -/
def fallLoop (ws : Ws) : Nat → Nat → SheetAcc → SheetAcc
  | 0, _, acc => acc
  | fuel + 1, row, acc =>
      if row < 500 then
        let acc1 := fallCollectRow ws row acc
        let game_entry := ws row 1
        let pitcher_name := clean_player_name (ws row 8)
        let batter_name := clean_player_name (ws row 26)
        if !game_entry.truthy && pitcher_name = "" && batter_name = "" then
          let has_more := (List.range' (row + 1) 4).any
            (fun check_row => (ws check_row 1).truthy || (ws check_row 8).truthy ||
              (ws check_row 26).truthy)
          if !has_more then acc1
          else fallLoop ws fuel (row + 1) acc1
        else fallLoop ws fuel (row + 1) acc1
      else acc

/-- The per-sheet result dictionary of `import_fall_sheet` /
`import_season_block`. -/
structure SheetResult where
  season_id : Option Nat := none
  games_imported : Nat := 0
  batting_records : Nat := 0
  pitching_records : Nat := 0
  errors : List String := []
deriving Repr, DecidableEq

/-- Names of the collected roster in creation order.  The source iterates
`set(list(batting_players.keys()) + list(pitching_players.keys()))`, whose
iteration order Python leaves unspecified; the model fixes the deterministic
first-occurrence order of that concatenation. -/
def rosterNames (acc : SheetAcc) : List String :=
  (acc.batting_players.map (·.1) ++ acc.pitching_players.map (·.1)).foldl
    (fun out n => if out.contains n then out else out ++ [n]) []

/-- The jersey choice for a roster name: the batting entry wins, else the
pitching entry (`if name in batting_players: ... elif name in pitching_players`). -/
def rosterJersey (acc : SheetAcc) (name : String) : PyVal :=
  match acc.batting_players.find? (fun kv => kv.1 = name) with
  | some kv => kv.2.jersey
  | none =>
      match acc.pitching_players.find? (fun kv => kv.1 = name) with
      | some kv => kv.2.jersey
      | none => .pnone

/-- Player creation from the collected roster
(`get_or_create_player(name, format_jersey(jersey))` per name). -/
def createRoster (acc : SheetAcc) (db : DB) : DB :=
  (rosterNames acc).foldl
    (fun db name => (get_or_create_player db name (format_jersey (rosterJersey acc name))).2)
    db

/-- Game creation from the collected game tuples: one `create_game` per tuple
with the raw W/L cell and the coerced scores; no batting or pitching rows are
written (the Excel data holds season aggregates only). -/
def createGames (season_id : Nat) (games : List (String × String × PyVal × Int × Int))
    (db : DB) : Nat × DB :=
  games.foldl
    (fun (p : Nat × DB) g =>
      let r := create_game p.2 season_id g.1 g.2.1 (pyToOptStr g.2.2.1)
        (some g.2.2.2.1) (some g.2.2.2.2) none none
      (p.1 + 1, r.2))
    (0, db)

/-- The season resolution of `import_fall_sheet`: `A7 or B7`, with a fallback
scan of column 1 rows 1-9 for the first parsable season label. -/
def fallSheetSeason (ws : Ws) : Option (String × Int) :=
  let season_text := if (ws 7 1).truthy then ws 7 1 else ws 7 2
  let st := parse_season_from_text (if season_text.truthy then pyStr season_text else "")
  match st with
  | some r => some r
  | none =>
      (List.range' 1 9).foldl
        (fun acc row =>
          match acc with
          | some _ => acc
          | none =>
              let cell_val := ws row 1
              if cell_val.truthy then parse_season_from_text (pyStr cell_val) else none)
        none

/-- `import_fall_sheet(ws, team_id)`: the single-season layout. -/
def import_fall_sheet (db : DB) (ws : Ws) (team_id : Option Nat) : SheetResult × DB :=
  match fallSheetSeason ws with
  | none => ({ errors := ["Could not determine season from sheet"] }, db)
  | some (season_type, year) =>
      let r0 := get_or_create_season db year season_type team_id
      let acc := fallLoop ws 500 9 {}
      let db2 := createRoster acc r0.2
      let r1 := createGames r0.1 acc.games db2
      ({ season_id := some r0.1, games_imported := r1.1 }, r1.2)

/-- One row of the multi-season block scan: game results in columns 1-4,
pitching block with name column 8, batting block with name column 24. -/
def blockCollectRow (ws : Ws) (row : Nat) (acc : SheetAcc) : SheetAcc :=
  let game_entry := ws row 1
  let acc :=
    match parse_game_entry game_entry with
    | some (game_date, opponent) =>
        if game_date ≠ "" && opponent ≠ "" then
          { acc with games := acc.games ++
              [(game_date, opponent, ws row 2, safe_int_py (ws row 3), safe_int_py (ws row 4))] }
        else acc
    | none => acc
  let pitcher_name_raw := ws row 8
  let pitcher_jersey_raw := ws row 7
  let pitcher_name := clean_player_name pitcher_name_raw
  let pitchRec : PitchRec :=
    { jersey := pitcher_jersey_raw,
      app := safe_int_py (ws row 9), ip := safe_float_py (ws row 10),
      h := safe_int_py (ws row 11), r := safe_int_py (ws row 12),
      k := safe_int_py (ws row 14), bb := safe_int_py (ws row 16),
      hbp := safe_int_py (ws row 18), pitches := safe_int_py (ws row 19),
      strikes := safe_int_py (ws row 20) }
  let acc :=
    if pitcher_name ≠ "" && !is_header_or_invalid_player pitcher_name_raw pitcher_jersey_raw then
      { acc with pitching_players := pyDictSet acc.pitching_players pitcher_name pitchRec }
    else acc
  let batter_name_raw := ws row 24
  let batter_jersey_raw := ws row 23
  let batter_name := clean_player_name batter_name_raw
  let batRec : BatRec :=
    { jersey := batter_jersey_raw,
      ab := safe_int_py (ws row 25), r := safe_int_py (ws row 26),
      h := safe_int_py (ws row 27), rbi := safe_int_py (ws row 28),
      bb := safe_int_py (ws row 29), so := safe_int_py (ws row 30) }
  if batter_name ≠ "" && !is_header_or_invalid_player batter_name_raw batter_jersey_raw then
    { acc with batting_players := pyDictSet acc.batting_players batter_name batRec }
  else acc

/-- `import_season_block(ws, start_row, end_row, season_type, year, team_id)`:
one block of a multi-season sheet, scanning rows `start_row + 3 .. end_row`. -/
def import_season_block (db : DB) (ws : Ws) (start_row end_row : Nat)
    (season_type : String) (year : Int) (team_id : Option Nat) : SheetResult × DB :=
  let r0 := get_or_create_season db year season_type team_id
  let data_start := start_row + 3
  let acc := (List.range' data_start (end_row + 1 - data_start)).foldl
    (fun a row => blockCollectRow ws row a) {}
  let db2 := createRoster acc r0.2
  let r1 := createGames r0.1 acc.games db2
  ({ season_id := some r0.1, games_imported := r1.1 }, r1.2)

/-- The deduplicated season-marker rows of a sheet: scan column 1 of rows
1-99, keep the first row of each distinct (season_type, year) pair. -/
def seasonRows (ws : Ws) : List (Nat × String × Int) :=
  let raw := (List.range' 1 99).foldl
    (fun acc row =>
      let cell_val := ws row 1
      if cell_val.truthy then
        match parse_season_from_text (pyStr cell_val) with
        | some (t, y) => acc ++ [(row, t, y)]
        | none => acc
      else acc)
    []
  raw.foldl
    (fun acc r => if acc.any (fun x => x.2.1 = r.2.1 && x.2.2 = r.2.2) then acc else acc ++ [r])
    []

/-- The end row of a season block: one row before the next marker, 500 for
the last block. -/
def nextEndRow : List (Nat × String × Int) → Nat
  | (nxt, _, _) :: _ => nxt - 1
  | [] => 500

/-- The per-block loop of `import_multi_season_sheet`. -/
def multiSeasonLoop (ws : Ws) (team_id : Option Nat) :
    List (Nat × String × Int) → DB → List SheetResult × DB
  | [], db => ([], db)
  | (start_row, season_type, year) :: rest, db =>
      let r := import_season_block db ws start_row (nextEndRow rest) season_type year team_id
      let more := multiSeasonLoop ws team_id rest r.2
      (r.1 :: more.1, more.2)

/-- `import_multi_season_sheet(ws, team_id)`. -/
def import_multi_season_sheet (db : DB) (ws : Ws) (team_id : Option Nat) :
    List SheetResult × DB :=
  multiSeasonLoop ws team_id (seasonRows ws) db

/-- A workbook: sheet names in order plus the cell contents per sheet name. -/
structure Workbook where
  sheetnames : List String
  sheet : String → Ws

/-- The distinct (season_type, year) pairs found in column 1 of rows 1-99
(`seasons_found` in `import_excel_workbook`). -/
def seasonsFound (ws : Ws) : List (String × Int) :=
  (List.range' 1 99).foldl
    (fun acc row =>
      let cell_val := ws row 1
      if cell_val.truthy then
        match parse_season_from_text (pyStr cell_val) with
        | some p => if acc.contains p then acc else acc ++ [p]
        | none => acc
      else acc)
    []

/-- The workbook-level result dictionary. -/
structure ExcelResult where
  file_type : String := "excel"
  sheets_processed : Nat := 0
  total_games : Nat := 0
  total_batting : Nat := 0
  total_pitching : Nat := 0
  team_id : Option Nat := none
  details : List SheetResult := []
  errors : List String := []
deriving Repr, DecidableEq

/-- The per-sheet body of the main loop of `import_excel_workbook`: resolve
the sheet's team, count the distinct season markers, and dispatch to the
multi-season or single-season importer, folding the counts into the
workbook-level result. -/
def sheetTeam (wb : Workbook) (team_info : TeamInfo) (team_id : Option Nat)
    (db : DB) (sheet_name : String) : Option Nat × DB :=
  let sheet_team_info := extract_team_info (wb.sheet sheet_name)
  if optTruthy sheet_team_info.team_name && sheet_team_info.team_name ≠ team_info.team_name
  then get_or_create_team_from_info db sheet_team_info
  else (team_id, db)

def workbookStep (wb : Workbook) (team_info : TeamInfo) (team_id : Option Nat)
    (p : ExcelResult × DB) (sheet_name : String) : ExcelResult × DB :=
  let ws := wb.sheet sheet_name
  let rs := sheetTeam wb team_info team_id p.2 sheet_name
  let res := p.1
  if (seasonsFound ws).length > 1 then
    let rm := import_multi_season_sheet rs.2 ws rs.1
    ({ res with
         details := res.details ++ rm.1,
         total_games := res.total_games + (rm.1.map (·.games_imported)).sum,
         total_batting := res.total_batting + (rm.1.map (·.batting_records)).sum,
         total_pitching := res.total_pitching + (rm.1.map (·.pitching_records)).sum,
         sheets_processed := res.sheets_processed + 1 }, rm.2)
  else
    let rf := import_fall_sheet rs.2 ws rs.1
    ({ res with
         details := res.details ++ [rf.1],
         total_games := res.total_games + rf.1.games_imported,
         total_batting := res.total_batting + rf.1.batting_records,
         total_pitching := res.total_pitching + rf.1.pitching_records,
         sheets_processed := res.sheets_processed + 1 }, rf.2)

/-- `import_excel_workbook(file_path)`: team extraction from the first sheet,
then per-sheet dispatch on the number of distinct season markers. -/
def import_excel_workbook (db : DB) (wb : Workbook) : ExcelResult × DB :=
  let first_ws := wb.sheet (wb.sheetnames.headD "")
  let team_info := extract_team_info first_ws
  let rt := get_or_create_team_from_info db team_info
  let team_id := rt.1
  wb.sheetnames.foldl (workbookStep wb team_info team_id) ({ team_id := team_id }, rt.2)

/-! ### Unified import interface -/

/-- The content of a file on disk, as far as the importers read it. -/
inductive FileContent where
  | csv (header : List String) (rows : List Dict)
  | excel (wb : Workbook)

/-- A file given to the unified importer. -/
structure FileModel where
  path : String
  content : FileContent

/-- `detect_file_type(file_path)`: extension first, then header sniffing for
CSV.  Opening non-CSV bytes as text raises inside the `try`, which the
source swallows into the generic `'csv'` answer. -/
def detect_file_type (f : FileModel) : String :=
  let ext := strLower (pathSuffix f.path)
  if ext = ".xlsx" || ext = ".xls" then "excel"
  else if ext = ".csv" then
    match f.content with
    | .csv header _ =>
        if !header.isEmpty then
          if header.contains "BoxScoreComponents__playerName" then "gamechanger_csv"
          else if header.any (fun col => pyIn "ag-cell" col) then "gamechanger_csv"
          else "csv"
        else "csv"
    | .excel _ => "csv"
  else "unknown"

/-- The unified result shape of `import_file` (one dictionary with optional
keys, tagged by `file_type`). -/
structure FileResult where
  file_type : String := ""
  game_id : Option Nat := none
  stats_imported : Nat := 0
  detected_fields : List (String × PyVal) := []
  missing_fields : List String := []
  sheets_processed : Nat := 0
  total_games : Nat := 0
  total_batting : Nat := 0
  total_pitching : Nat := 0
  errors : List String := []
deriving Repr, DecidableEq

/-- `import_file(file_path, season_id, game_date, game_time, opponent,
win_loss, runs_for, runs_against)`: detect the type, then route.  `game_date`
is dynamically typed (see `import_multiple_files`).  A `.error` models an
uncaught Python exception. -/
def import_file (db : DB) (f : FileModel) (season_id : Option Nat)
    (game_date : PyVal := .pnone) (game_time : Option String := none)
    (opponent : Option String := none) (win_loss : Option String := none)
    (runs_for : Option Int := none) (runs_against : Option Int := none) :
    Except String FileResult × DB :=
  let file_type := detect_file_type f
  if file_type = "excel" then
    match f.content with
    | .excel wb =>
        let r := import_excel_workbook db wb
        (.ok { file_type := "excel", sheets_processed := r.1.sheets_processed,
               total_games := r.1.total_games, total_batting := r.1.total_batting,
               total_pitching := r.1.total_pitching, errors := r.1.errors }, r.2)
    | .csv _ _ =>
        -- load_workbook on non-zip bytes raises (uncaught in importer.py)
        (.error "zipfile.BadZipFile", db)
  else if file_type = "gamechanger_csv" || file_type = "csv" then
    if !optNatTruthy season_id then
      (.ok { file_type := file_type,
             errors := ["Season ID required for CSV imports. Please select a season first."] },
       db)
    else
      match f.content with
      | .csv _ rows =>
          let r := import_gamechanger_csv db f.path rows (season_id.getD 0) game_date
            game_time opponent win_loss runs_for runs_against
          match r.1 with
          | .ok res => (.ok { res with file_type := file_type }, r.2)
          | .error e => (.error e, r.2)
      | .excel _ =>
          -- reading workbook bytes as UTF-8 text raises (uncaught)
          (.error "UnicodeDecodeError", db)
  else
    (.ok { file_type := "unknown",
           errors := ["Unsupported file type: " ++ pathSuffix f.path] }, db)

/-- The combined result dictionary of `import_multiple_files`. -/
structure BatchResult where
  files_processed : Nat := 0
  excel_files : Nat := 0
  csv_files : Nat := 0
  total_games : Nat := 0
  total_batting : Nat := 0
  total_pitching : Nat := 0
  total_stats : Nat := 0
  errors : List String := []
deriving Repr, DecidableEq

/-- The per-file accumulation of `import_multiple_files`. -/
def batchStep (acc : BatchResult) (res : FileResult) : BatchResult :=
  let acc := { acc with
    files_processed := acc.files_processed + 1,
    errors := acc.errors ++ res.errors }
  if res.file_type = "excel" then
    { acc with excel_files := acc.excel_files + 1,
               total_games := acc.total_games + res.total_games,
               total_batting := acc.total_batting + res.total_batting,
               total_pitching := acc.total_pitching + res.total_pitching }
  else if res.file_type = "gamechanger_csv" || res.file_type = "csv" then
    { acc with csv_files := acc.csv_files + 1,
               total_games := acc.total_games + (if res.game_id.isSome then 1 else 0),
               total_stats := acc.total_stats + res.stats_imported }
  else acc

/-- The file loop of `import_multiple_files`.  The source invokes
`import_file(file_path, season_id, verbose)` with three positional
arguments, so the boolean `verbose` flag is bound to `import_file`'s third
parameter `game_date`; nothing catches exceptions here, so a raise aborts
the batch with the database as it stood. -/
def batchLoop (season_id : Option Nat) (verbose : Bool) :
    List FileModel → BatchResult → DB → Except String BatchResult × DB
  | [], acc, db => (.ok acc, db)
  | f :: rest, acc, db =>
      match import_file db f season_id (PyVal.pbool verbose) with
      | (.ok res, db1) => batchLoop season_id verbose rest (batchStep acc res) db1
      | (.error e, db1) => (.error e, db1)

/-- `import_multiple_files(file_paths, season_id, verbose)` (verbose defaults
to `True` in the source). -/
def import_multiple_files (db : DB) (files : List FileModel) (season_id : Option Nat)
    (verbose : Bool := true) : Except String BatchResult × DB :=
  batchLoop season_id verbose files {} db

end Importer

/-! ## Proof-support definitions -/

/-- Number of batting rows for one (game, player) pair. -/
def pairCount (l : List BattingStats) (game_id player_id : Nat) : Nat :=
  l.countP (fun b => b.game_id = game_id && b.player_id = player_id)

/-- Readiness of a database for re-processing one CSV data row against a
fixed game: the row's player resolves by name and the (game, player) pair
holds exactly one batting row. -/
def pairReady (game_id : Nat) (player_col : Option String) (db : DB) (row : Dict) : Prop :=
  ImportCsv.csvRowName player_col row ≠ "" →
  ∃ p, get_player_by_name db (cleanNameDB (ImportCsv.csvRowName player_col row)) = some p ∧
    pairCount db.batting game_id p.id = 1

/-- The game row inserted by the import_csv.py game step when no fuzzy match
exists (spelled out for the idempotence proof). -/
def newGame (db : DB) (path : String) (ftype : String) (sid : Nat)
    (gd opp : String) (tr : Int) : Game :=
  { id := db.next_game_id, season_id := sid, game_date := gd, opponent_name := opp,
    opponent_team_id := none, win_loss := none, runs_for := some tr,
    runs_against := none,
    notes := some ("Imported from CSV (" ++ ftype ++ "): " ++ pathLast path) }

/-! ## Concrete inputs used by witnesses and counterexamples -/

/-- A GameChanger-era CSV export modelled concretely: standard dialect with a
date column, under a filename that also carries a parsable date. -/
def c10File : Importer.FileModel :=
  { path := "game1_sep6_vipers.csv",
    content := .csv ["player", "ab", "r", "h", "date"]
      [[("player", "Alice"), ("ab", "3"), ("r", "1"), ("h", "2"), ("date", "9/6")]] }

/-- The pre-existing game of the C2 scenario: season 1, 9/6, opponent
"NJ Vipers 12U White". -/
def c2Game : Game :=
  { id := 1, season_id := 1, game_date := "9/6",
    opponent_name := "NJ Vipers 12U White", win_loss := some "W",
    runs_for := some 10, runs_against := some 2 }

/-- A database holding one game of season 1 on 9/6 against
"NJ Vipers 12U White", as produced by a prior Excel import. -/
def c2DB : DB := { games := [c2Game], next_game_id := 2 }

/-- The first data row of the standard-dialect CSV of the C1 witness. -/
def c1Row0 : Dict := [("player", "Alice"), ("ab", "3"), ("r", "1"), ("h", "2")]

/-- The remaining data rows of the C1 witness CSV. -/
def c1Rest : List Dict := [[("player", "Bella"), ("ab", "2"), ("r", "0"), ("h", "1")]]

/-! # Theorems -/

/-! ## C8: zero-denominator safety of the derived metrics -/

/-- C8: a `BattingStats` line with `ab = 0` has `ba = 0`, and with all
plate-appearance components 0 also `obp = 0`; a `PitchingStats` line with
`ip = 0` and `pitches = 0` has `era = whip = strike_pct = 0`.  A zero
denominator is a defined value, not a division error. -/
theorem C8_zero_denominator_safety (b : BattingStats) (p : PitchingStats)
    (hab : b.ab = 0) (hbb : b.bb = 0) (hhbp : b.hbp = 0) (hsac : b.sac = 0)
    (hip : p.ip = 0) (hpitches : p.pitches = 0) :
    b.ba = 0 ∧ b.obp = 0 ∧ p.era = 0 ∧ p.whip = 0 ∧ p.strike_pct = 0 := by
  unfold BattingStats.ba BattingStats.obp PitchingStats.era PitchingStats.whip
    PitchingStats.strike_pct
  rw [hab, hbb, hhbp, hsac, hip, hpitches]
  norm_num

/-- Witness for C8 at the all-zero stat lines. -/
theorem C8_witness :
    ({ id := 1, game_id := 1, player_id := 1 } : BattingStats).ba = 0 ∧
    ({ id := 1, game_id := 1, player_id := 1 } : BattingStats).obp = 0 ∧
    ({ id := 1, game_id := 1, player_id := 1 } : PitchingStats).era = 0 ∧
    ({ id := 1, game_id := 1, player_id := 1 } : PitchingStats).whip = 0 ∧
    ({ id := 1, game_id := 1, player_id := 1 } : PitchingStats).strike_pct = 0 :=
  C8_zero_denominator_safety { id := 1, game_id := 1, player_id := 1 }
    { id := 1, game_id := 1, player_id := 1 } rfl rfl rfl rfl rfl rfl

/-! ## C9: the 7-inning ERA scale -/

/-- C9: for `ip > 0` the derived ERA is `er * 7 / ip` (7-inning scale). -/
theorem C9_era_seven_inning_scale (p : PitchingStats) (h : p.ip > 0) :
    p.era = (p.er : Rat) * 7 / p.ip := by
  unfold PitchingStats.era
  rw [if_pos h]

/-- Witness for C9 at `er = 3`, `ip = 6`: the ERA is `7/2 = 3.5`. -/
theorem C9_witness :
    ({ id := 1, game_id := 1, player_id := 1, er := 3, ip := 6 } : PitchingStats).era = 7 / 2 := by
  have h := C9_era_seven_inning_scale
    { id := 1, game_id := 1, player_id := 1, er := 3, ip := 6 } (by norm_num)
  rw [h]
  norm_num

/-! ## C7: filename parsing -/

/-- Counterexample to C7: `"game2_xyz6_vipers.csv"` deviates from the
`game<N>_<month-abbrev><day>_<opponent>` pattern (`xyz` is not an English
month abbreviation), yet the parser returns `game_num = 2` and
`opponent = "Vipers"` — not the all-null output the claim requires. -/
theorem C7_cex :
    ¬ (parse_filename_for_game_info "game2_xyz6_vipers.csv" = {}) ∧
    parse_filename_for_game_info "game2_xyz6_vipers.csv" =
      { game_date := none, opponent := some "Vipers", game_num := some 2 } := by
  constructor
  · decide
  · decide

/-- C7 as amended: the documented example parses as specified, a filename
that misses the regex shape entirely yields all-null output, but a filename
matching the regex with an unknown month abbreviation yields game number and
opponent with a null date (partial credit). -/
theorem C7_amended_filename_parsing :
    parse_filename_for_game_info "game2_sep6_vipers.csv" =
      { game_date := some "9/6", opponent := some "Vipers", game_num := some 2 } ∧
    parse_filename_for_game_info "random_export.csv" = {} ∧
    (∀ filename, matchGamePattern (pathStem filename).data = none →
      parse_filename_for_game_info filename = {}) ∧
    parse_filename_for_game_info "game2_xyz6_vipers.csv" =
      { game_date := none, opponent := some "Vipers", game_num := some 2 } := by
  refine ⟨by decide, by decide, ?_, by decide⟩
  intro filename h
  simp [parse_filename_for_game_info, h]

/-- Witness for C7 (amended): the all-null case applied at a concrete
non-matching filename. -/
theorem C7_witness :
    parse_filename_for_game_info "season_totals.csv" = {} :=
  C7_amended_filename_parsing.2.2.1 "season_totals.csv" (by decide)

/-! ## C3: player identity -/

/-- Counterexample to C3: two records with the same display name and
different jersey numbers resolve to the same player id (the lookup of
`get_or_create_player` is by name only), leaving a single player row. -/
theorem C3_cex :
    (get_or_create_player (get_or_create_player emptyDB "Alex Smith" (some "5")).2
        "Alex Smith" (some "7")).1 =
      (get_or_create_player emptyDB "Alex Smith" (some "5")).1 ∧
    (get_or_create_player (get_or_create_player emptyDB "Alex Smith" (some "5")).2
        "Alex Smith" (some "7")).2.players.length = 1 := by
  constructor
  · decide
  · decide

/-- C3 as amended: `get_or_create_player` resolves players by cleaned name
alone; a second call with the same name returns the first call's id and
leaves the database unchanged, whatever the jersey numbers are. -/
theorem C3_amended_name_only_identity (db : DB) (name : String) (j1 j2 : Option String) :
    (get_or_create_player (get_or_create_player db name j1).2 name j2).1 =
      (get_or_create_player db name j1).1 ∧
    (get_or_create_player (get_or_create_player db name j1).2 name j2).2 =
      (get_or_create_player db name j1).2 := by
  unfold get_or_create_player
  cases h : get_player_by_name db (cleanNameDB name) with
  | some p => simp [h]
  | none =>
      have hfind : get_player_by_name
          { db with players := db.players ++ [⟨db.next_player_id, cleanNameDB name, j1⟩],
                    next_player_id := db.next_player_id + 1 }
          (cleanNameDB name) =
          some ⟨db.next_player_id, cleanNameDB name, j1⟩ := by
        unfold get_player_by_name at h ⊢
        rw [List.find?_append, h]
        simp
      simp [h, create_player, hfind]

/-- `coalesce` is `Option.or`: the first (caller-supplied) value wins when
present. -/
theorem coalesce_eq_or {α : Type} (new old : Option α) :
    coalesce new old = new.or old := by
  cases new <;> rfl

/-! ## C4: merge precedence in create_game -/

/-- Counterexample to C4: re-upserting the same game with a caller-supplied
`win_loss = "L"` overwrites the stored non-null `"W"`; the stored non-null
value does not win the merge. -/
theorem C4_cex :
    (create_game emptyDB 1 "9/6" "Vipers" (some "W")).2.games.map (·.win_loss) =
      [some "W"] ∧
    (create_game (create_game emptyDB 1 "9/6" "Vipers" (some "W")).2
        1 "9/6" "Vipers" (some "L")).2.games.map (·.win_loss) = [some "L"] := by
  constructor
  · decide
  · decide

/-- C4 as amended: on a key hit `create_game` merges every field with
`COALESCE(caller, stored)` — the caller's non-null value wins, and a
caller-supplied null leaves the stored value unchanged (so a null never
overwrites a stored non-null value).  The hit updates in place: the id
returned is the existing row's and the table does not grow. -/
theorem C4_amended_merge_caller_wins (db : DB) (sid : Nat) (d o : String)
    (wl : Option String) (rf ra : Option Int) (otid : Option Nat) (nts : Option String)
    (g : Game) (hfind : findExistingGame db sid d o rf ra = some g) :
    (create_game db sid d o wl rf ra otid nts).1 = g.id ∧
    (create_game db sid d o wl rf ra otid nts).2.games.length = db.games.length ∧
    ∃ g' ∈ (create_game db sid d o wl rf ra otid nts).2.games, g'.id = g.id ∧
      g'.win_loss = wl.or g.win_loss ∧
      g'.runs_for = rf.or g.runs_for ∧
      g'.runs_against = ra.or g.runs_against ∧
      g'.opponent_team_id = otid.or g.opponent_team_id ∧
      g'.notes = nts.or g.notes := by
  have hg : g ∈ db.games := by
    unfold findExistingGame at hfind
    cases rf <;> cases ra <;> first
      | exact List.mem_of_find?_eq_some hfind
  unfold create_game
  rw [hfind]
  refine ⟨rfl, by simp, ?_⟩
  refine ⟨_, List.mem_map_of_mem _ hg, ?_⟩
  simp only [if_pos rfl, if_true]
  exact ⟨trivial, coalesce_eq_or wl g.win_loss, coalesce_eq_or rf g.runs_for,
    coalesce_eq_or ra g.runs_against, coalesce_eq_or otid g.opponent_team_id,
    coalesce_eq_or nts g.notes⟩

/-- Witness for C4 (amended): a stored `"W"`/missing-notes row merged with a
caller `"L"`/notes update keeps nothing the caller supplied non-null. -/
theorem C4_witness :
    (create_game (create_game emptyDB 1 "9/6" "Vipers" (some "W")).2
        1 "9/6" "Vipers" (some "L") none none none (some "n")).1 = 1 ∧
    ∃ g' ∈ (create_game (create_game emptyDB 1 "9/6" "Vipers" (some "W")).2
        1 "9/6" "Vipers" (some "L") none none none (some "n")).2.games,
      g'.win_loss = some "L" ∧ g'.notes = some "n" := by
  have h := C4_amended_merge_caller_wins (create_game emptyDB 1 "9/6" "Vipers" (some "W")).2
    1 "9/6" "Vipers" (some "L") none none none (some "n")
    { id := 1, season_id := 1, game_date := "9/6", opponent_name := "Vipers",
      win_loss := some "W" } (by decide)
  obtain ⟨g', hmem, _, hwl, _, _, _, hnts⟩ := h.2.2
  exact ⟨h.1, ⟨g', hmem, hwl, hnts⟩⟩

/-! ## C6: the Excel extractor writes no batting or pitching lines -/

/-- `get_or_create_age_group` leaves the stat tables unchanged. -/
theorem bp_age_group (db : DB) (n : String) (so : Int) :
    (get_or_create_age_group db n so).2.batting = db.batting ∧
    (get_or_create_age_group db n so).2.pitching = db.pitching := by
  simp only [get_or_create_age_group]
  cases h : db.age_groups.find? (fun a => a.name = n) <;> simp [h]

/-- `get_or_create_our_team` leaves the stat tables unchanged. -/
theorem bp_our_team (db : DB) (n : String) (ag : Nat) (loc : Option String) :
    (get_or_create_our_team db n ag loc).2.batting = db.batting ∧
    (get_or_create_our_team db n ag loc).2.pitching = db.pitching := by
  simp only [get_or_create_our_team]
  cases h : db.our_teams.find? (fun t => t.name = n && t.age_group_id = ag) <;> simp [h]

/-- `get_or_create_season` leaves the stat tables unchanged. -/
theorem bp_season (db : DB) (y : Int) (t : String) (tid : Option Nat) :
    (get_or_create_season db y t tid).2.batting = db.batting ∧
    (get_or_create_season db y t tid).2.pitching = db.pitching := by
  simp only [get_or_create_season]
  cases h : findSeason db y t tid <;> simp [h]

/-- `get_or_create_player` leaves the stat tables unchanged. -/
theorem bp_player (db : DB) (n : String) (j : Option String) :
    (get_or_create_player db n j).2.batting = db.batting ∧
    (get_or_create_player db n j).2.pitching = db.pitching := by
  simp only [get_or_create_player]
  cases h : get_player_by_name db (cleanNameDB n) <;> simp [h, create_player]

/-- `create_game` leaves the stat tables unchanged. -/
theorem bp_create_game (db : DB) (sid : Nat) (d o : String) (wl : Option String)
    (rf ra : Option Int) (otid : Option Nat) (nts : Option String) :
    (create_game db sid d o wl rf ra otid nts).2.batting = db.batting ∧
    (create_game db sid d o wl rf ra otid nts).2.pitching = db.pitching := by
  simp only [create_game]
  cases h : findExistingGame db sid d o rf ra <;> simp [h]

/-- `get_or_create_team_from_info` leaves the stat tables unchanged. -/
theorem bp_team_from_info (db : DB) (ti : Importer.TeamInfo) :
    (Importer.get_or_create_team_from_info db ti).2.batting = db.batting ∧
    (Importer.get_or_create_team_from_info db ti).2.pitching = db.pitching := by
  simp only [Importer.get_or_create_team_from_info]
  by_cases h : (!optTruthy ti.age_group || !optTruthy ti.team_name) = true
  · simp [h]
  · simp only [h, if_false, Bool.false_eq_true]
    refine ⟨?_, ?_⟩
    · rw [(bp_our_team _ _ _ _).1, (bp_age_group _ _ _).1]
    · rw [(bp_our_team _ _ _ _).2, (bp_age_group _ _ _).2]

/-- `createRoster` leaves the stat tables unchanged. -/
theorem bp_createRoster (acc : Importer.SheetAcc) (db : DB) :
    (Importer.createRoster acc db).batting = db.batting ∧
    (Importer.createRoster acc db).pitching = db.pitching := by
  unfold Importer.createRoster
  generalize Importer.rosterNames acc = names
  induction names generalizing db with
  | nil => exact ⟨rfl, rfl⟩
  | cons n rest ih =>
      simp only [List.foldl_cons]
      refine ⟨?_, ?_⟩
      · rw [(ih _).1, (bp_player _ _ _).1]
      · rw [(ih _).2, (bp_player _ _ _).2]

/-- `createGames` leaves the stat tables unchanged. -/
theorem bp_createGames (sid : Nat) (gs : List (String × String × PyVal × Int × Int))
    (n : Nat) (db : DB) :
    (Importer.createGames sid gs db).2.batting = db.batting ∧
    (Importer.createGames sid gs db).2.pitching = db.pitching := by
  unfold Importer.createGames
  suffices h : ∀ (l : List (String × String × PyVal × Int × Int)) (acc : Nat × DB),
      (l.foldl (fun (p : Nat × DB) g =>
        let r := create_game p.2 sid g.1 g.2.1 (Importer.pyToOptStr g.2.2.1)
          (some g.2.2.2.1) (some g.2.2.2.2) none none
        (p.1 + 1, r.2)) acc).2.batting = acc.2.batting ∧
      (l.foldl (fun (p : Nat × DB) g =>
        let r := create_game p.2 sid g.1 g.2.1 (Importer.pyToOptStr g.2.2.1)
          (some g.2.2.2.1) (some g.2.2.2.2) none none
        (p.1 + 1, r.2)) acc).2.pitching = acc.2.pitching by
    exact h gs (0, db)
  intro l
  induction l with
  | nil => exact fun acc => ⟨rfl, rfl⟩
  | cons g rest ih =>
      intro acc
      simp only [List.foldl_cons]
      refine ⟨?_, ?_⟩
      · rw [(ih _).1, (bp_create_game _ _ _ _ _ _ _ _ _).1]
      · rw [(ih _).2, (bp_create_game _ _ _ _ _ _ _ _ _).2]

/-- `import_fall_sheet` leaves the stat tables unchanged and reports zero
batting/pitching records. -/
theorem bp_fall_sheet (db : DB) (ws : Importer.Ws) (tid : Option Nat) :
    (Importer.import_fall_sheet db ws tid).2.batting = db.batting ∧
    (Importer.import_fall_sheet db ws tid).2.pitching = db.pitching ∧
    (Importer.import_fall_sheet db ws tid).1.batting_records = 0 ∧
    (Importer.import_fall_sheet db ws tid).1.pitching_records = 0 := by
  unfold Importer.import_fall_sheet
  cases h : Importer.fallSheetSeason ws with
  | none => exact ⟨rfl, rfl, rfl, rfl⟩
  | some p =>
      refine ⟨?_, ?_, rfl, rfl⟩
      · rw [(bp_createGames _ _ 0 _).1, (bp_createRoster _ _).1, (bp_season _ _ _ _).1]
      · rw [(bp_createGames _ _ 0 _).2, (bp_createRoster _ _).2, (bp_season _ _ _ _).2]

/-- `import_season_block` leaves the stat tables unchanged and reports zero
batting/pitching records. -/
theorem bp_season_block (db : DB) (ws : Importer.Ws) (sr er : Nat) (st : String)
    (yr : Int) (tid : Option Nat) :
    (Importer.import_season_block db ws sr er st yr tid).2.batting = db.batting ∧
    (Importer.import_season_block db ws sr er st yr tid).2.pitching = db.pitching ∧
    (Importer.import_season_block db ws sr er st yr tid).1.batting_records = 0 ∧
    (Importer.import_season_block db ws sr er st yr tid).1.pitching_records = 0 := by
  unfold Importer.import_season_block
  refine ⟨?_, ?_, rfl, rfl⟩
  · rw [(bp_createGames _ _ 0 _).1, (bp_createRoster _ _).1, (bp_season _ _ _ _).1]
  · rw [(bp_createGames _ _ 0 _).2, (bp_createRoster _ _).2, (bp_season _ _ _ _).2]

/-- `multiSeasonLoop` leaves the stat tables unchanged and every reported
block result carries zero batting/pitching records. -/
theorem bp_multi_loop (ws : Importer.Ws) (tid : Option Nat)
    (rows : List (Nat × String × Int)) (db : DB) :
    (Importer.multiSeasonLoop ws tid rows db).2.batting = db.batting ∧
    (Importer.multiSeasonLoop ws tid rows db).2.pitching = db.pitching ∧
    ∀ r ∈ (Importer.multiSeasonLoop ws tid rows db).1,
      r.batting_records = 0 ∧ r.pitching_records = 0 := by
  induction rows generalizing db with
  | nil => exact ⟨rfl, rfl, by intro r hr; cases hr⟩
  | cons blk rest ih =>
      obtain ⟨sr, st, yr⟩ := blk
      simp only [Importer.multiSeasonLoop]
      obtain ⟨ih1, ih2, ih3⟩ := ih (Importer.import_season_block db ws sr
        (Importer.nextEndRow rest) st yr tid).2
      have hb := bp_season_block db ws sr (Importer.nextEndRow rest) st yr tid
      refine ⟨ih1.trans hb.1, ih2.trans hb.2.1, ?_⟩
      intro r hr
      rcases List.mem_cons.mp hr with hr1 | hr1
      · subst hr1
        exact ⟨hb.2.2.1, hb.2.2.2⟩
      · exact ih3 r hr1

/-- Folding `workbookStep` over any sheet list preserves the stat tables and
adds nothing to the batting/pitching totals. -/
theorem bp_workbook_fold (wb : Importer.Workbook) (ti : Importer.TeamInfo)
    (tid : Option Nat) (names : List String) (res : Importer.ExcelResult) (db : DB) :
    (names.foldl (Importer.workbookStep wb ti tid) (res, db)).2.batting = db.batting ∧
    (names.foldl (Importer.workbookStep wb ti tid) (res, db)).2.pitching = db.pitching ∧
    (names.foldl (Importer.workbookStep wb ti tid) (res, db)).1.total_batting =
      res.total_batting ∧
    (names.foldl (Importer.workbookStep wb ti tid) (res, db)).1.total_pitching =
      res.total_pitching := by
  induction names generalizing res db with
  | nil => exact ⟨rfl, rfl, rfl, rfl⟩
  | cons n rest ih =>
      simp only [List.foldl_cons]
      have hsheet : (Importer.sheetTeam wb ti tid db n).2.batting = db.batting ∧
          (Importer.sheetTeam wb ti tid db n).2.pitching = db.pitching := by
        simp only [Importer.sheetTeam]
        split
        · exact bp_team_from_info db _
        · exact ⟨rfl, rfl⟩
      have hstep :
          (Importer.workbookStep wb ti tid (res, db) n).2.batting = db.batting ∧
          (Importer.workbookStep wb ti tid (res, db) n).2.pitching = db.pitching ∧
          (Importer.workbookStep wb ti tid (res, db) n).1.total_batting =
            res.total_batting ∧
          (Importer.workbookStep wb ti tid (res, db) n).1.total_pitching =
            res.total_pitching := by
        simp only [Importer.workbookStep]
        split
        · obtain ⟨h1, h2, h3⟩ := bp_multi_loop (wb.sheet n) (Importer.sheetTeam wb ti tid db n).1
            (Importer.seasonRows (wb.sheet n)) (Importer.sheetTeam wb ti tid db n).2
          have hzb : ((Importer.import_multi_season_sheet (Importer.sheetTeam wb ti tid db n).2
              (wb.sheet n) (Importer.sheetTeam wb ti tid db n).1).1.map
              (·.batting_records)).sum = 0 := by
            rw [List.sum_eq_zero]
            intro x hx
            obtain ⟨r, hr, hxr⟩ := List.mem_map.1 hx
            rw [← hxr, (h3 r hr).1]
          have hzp : ((Importer.import_multi_season_sheet (Importer.sheetTeam wb ti tid db n).2
              (wb.sheet n) (Importer.sheetTeam wb ti tid db n).1).1.map
              (·.pitching_records)).sum = 0 := by
            rw [List.sum_eq_zero]
            intro x hx
            obtain ⟨r, hr, hxr⟩ := List.mem_map.1 hx
            rw [← hxr, (h3 r hr).2]
          refine ⟨?_, ?_, ?_, ?_⟩
          · exact h1.trans hsheet.1
          · exact h2.trans hsheet.2
          · simp [Importer.import_multi_season_sheet] at hzb ⊢
            simp [hzb]
          · simp [Importer.import_multi_season_sheet] at hzp ⊢
            simp [hzp]
        · obtain ⟨h1, h2, h3, h4⟩ := bp_fall_sheet (Importer.sheetTeam wb ti tid db n).2
            (wb.sheet n) (Importer.sheetTeam wb ti tid db n).1
          refine ⟨?_, ?_, ?_, ?_⟩
          · exact h1.trans hsheet.1
          · exact h2.trans hsheet.2
          · simp [h3]
          · simp [h4]
      obtain ⟨ihb, ihp, ihtb, ihtp⟩ := ih (Importer.workbookStep wb ti tid (res, db) n).1
        (Importer.workbookStep wb ti tid (res, db) n).2
      exact ⟨by rw [ihb, hstep.1], by rw [ihp, hstep.2.1],
             by rw [ihtb, hstep.2.2.1], by rw [ihtp, hstep.2.2.2]⟩

/-- C6: on every Excel import path — the single-season sheet importer, the
multi-season block importer, the multi-season sheet loop, and the
workbook-level importer — no BattingLine or PitchingLine record is written:
the batting and pitching tables are unchanged, and the reported
batting_records / pitching_records / total_batting / total_pitching counts
are all 0. -/
theorem C6_excel_no_stat_lines (db : DB) (ws : Importer.Ws) (team_id : Option Nat)
    (start_row end_row : Nat) (season_type : String) (year : Int)
    (wb : Importer.Workbook) :
    ((Importer.import_fall_sheet db ws team_id).2.batting = db.batting ∧
     (Importer.import_fall_sheet db ws team_id).2.pitching = db.pitching ∧
     (Importer.import_fall_sheet db ws team_id).1.batting_records = 0 ∧
     (Importer.import_fall_sheet db ws team_id).1.pitching_records = 0) ∧
    ((Importer.import_season_block db ws start_row end_row season_type year team_id).2.batting
        = db.batting ∧
     (Importer.import_season_block db ws start_row end_row season_type year team_id).2.pitching
        = db.pitching ∧
     (Importer.import_season_block db ws start_row end_row season_type year team_id).1.batting_records
        = 0 ∧
     (Importer.import_season_block db ws start_row end_row season_type year team_id).1.pitching_records
        = 0) ∧
    ((Importer.import_multi_season_sheet db ws team_id).2.batting = db.batting ∧
     (Importer.import_multi_season_sheet db ws team_id).2.pitching = db.pitching ∧
     ∀ r ∈ (Importer.import_multi_season_sheet db ws team_id).1,
       r.batting_records = 0 ∧ r.pitching_records = 0) ∧
    ((Importer.import_excel_workbook db wb).2.batting = db.batting ∧
     (Importer.import_excel_workbook db wb).2.pitching = db.pitching ∧
     (Importer.import_excel_workbook db wb).1.total_batting = 0 ∧
     (Importer.import_excel_workbook db wb).1.total_pitching = 0) := by
  refine ⟨bp_fall_sheet db ws team_id,
          bp_season_block db ws start_row end_row season_type year team_id,
          bp_multi_loop ws team_id (Importer.seasonRows ws) db, ?_⟩
  have hwb := bp_workbook_fold wb (Importer.extract_team_info
      (wb.sheet (wb.sheetnames.headD "")))
    (Importer.get_or_create_team_from_info db (Importer.extract_team_info
      (wb.sheet (wb.sheetnames.headD "")))).1
    wb.sheetnames
    { team_id := (Importer.get_or_create_team_from_info db (Importer.extract_team_info
        (wb.sheet (wb.sheetnames.headD "")))).1 }
    (Importer.get_or_create_team_from_info db (Importer.extract_team_info
      (wb.sheet (wb.sheetnames.headD "")))).2
  have hti := bp_team_from_info db (Importer.extract_team_info
    (wb.sheet (wb.sheetnames.headD "")))
  exact ⟨hwb.1.trans hti.1, hwb.2.1.trans hti.2, hwb.2.2.1, hwb.2.2.2⟩

/-- Witness for C6 at an empty worksheet and a one-sheet workbook. -/
theorem C6_witness :
    (Importer.import_fall_sheet emptyDB (fun _ _ => PyVal.pnone) none).2.batting = [] ∧
    (Importer.import_excel_workbook emptyDB
      ⟨["Fall"], fun _ => fun _ _ => PyVal.pnone⟩).1.total_batting = 0 := by
  have h := C6_excel_no_stat_lines emptyDB (fun _ _ => PyVal.pnone) none 1 1 "Fall" 2025
    ⟨["Fall"], fun _ => fun _ _ => PyVal.pnone⟩
  exact ⟨h.1.1, h.2.2.2.2.2.1⟩

/-! ## C5: missing game date is the only hard failure after format detection -/

/-- When neither the CSV column nor the filename yields a date, the
resolution chain returns the caller's value unchanged. -/
theorem resolvedDateU_of_none (gd : PyVal) (rm : Dict) (r0 : Dict) (path : String)
    (h1 : Importer.metaCell rm r0 "game_date" = none)
    (h2 : (parse_filename_for_game_info path).game_date = none) :
    Importer.resolvedDateU gd rm r0 path = gd := by
  unfold Importer.resolvedDateU Importer.dateAfterCsv
  rw [h1, h2]

/-- C5: after format detection succeeds, an unresolvable game date (no caller
override, no detected date cell, no filename date) makes
`import_gamechanger_csv` return a result whose errors list is exactly the
required-date message, with the database unchanged and no game or stat rows
written; and conversely every returned result with a non-empty errors list
is that same date failure with the database unchanged — the only hard-fail
condition on this path. -/
theorem C5_required_date_hard_fail (db : DB) (path : String) (rows : List Dict)
    (sid : Nat) (game_date : PyVal) (game_time opponent win_loss : Option String)
    (runs_for runs_against : Option Int) (r0 : Dict) (rest : List Dict)
    (hrows : rows = r0 :: rest)
    (hu : (Importer.detect_csv_format (r0.map (·.1))).1 ≠ "unknown")
    (he : (Importer.detect_csv_format (r0.map (·.1))).2.isEmpty = false) :
    (game_date.truthy = false →
      Importer.metaCell (reverseMap (Importer.detect_csv_format (r0.map (·.1))).2) r0
        "game_date" = none →
      (parse_filename_for_game_info path).game_date = none →
      ∃ res, Importer.import_gamechanger_csv db path rows sid game_date game_time opponent
          win_loss runs_for runs_against = (.ok res, db) ∧
        res.errors = ["Game date is required. Please provide a date for this game."] ∧
        res.game_id = none ∧ res.stats_imported = 0) ∧
    (∀ res db', Importer.import_gamechanger_csv db path rows sid game_date game_time
        opponent win_loss runs_for runs_against = (.ok res, db') →
      res.errors ≠ [] →
      (Importer.resolvedDateU game_date
          (reverseMap (Importer.detect_csv_format (r0.map (·.1))).2) r0 path).truthy = false ∧
      db' = db ∧
      res.errors = ["Game date is required. Please provide a date for this game."]) := by
  subst hrows
  have hcond : (decide ((Importer.detect_csv_format (r0.map (·.1))).1 = "unknown") ||
      (Importer.detect_csv_format (r0.map (·.1))).2.isEmpty) = false := by
    simp [hu, he]
  constructor
  · intro hgd h1 h2
    simp only [Importer.import_gamechanger_csv, hcond, Bool.false_eq_true, if_false,
      resolvedDateU_of_none game_date _ r0 path h1 h2, hgd, Bool.not_false, if_true]
    exact ⟨_, rfl, rfl, rfl, rfl⟩
  · intro res db' heq herr
    revert heq
    simp only [Importer.import_gamechanger_csv, hcond, Bool.false_eq_true, if_false]
    cases hB : (Importer.resolvedDateU game_date
        (reverseMap (Importer.detect_csv_format (r0.map (·.1))).2) r0 path).truthy
    · simp only [Bool.not_false, if_true]
      intro heq
      injection heq with hfst hsnd
      injection hfst with hres
      exact ⟨trivial, hsnd.symm, by rw [← hres]⟩
    · simp only [Bool.not_true, if_false]
      intro heq
      injection heq with hfst hsnd
      exact absurd hfst (by simp)

/-- Witness for C5: a CSV with only a player column, a filename with no date
pattern, and no caller override fails with the required-date error and no
database change. -/
theorem C5_witness :
    ∃ res, Importer.import_gamechanger_csv emptyDB "stats_export.csv"
        [[("player", "Alice")]] 1 .pnone none none none none none = (.ok res, emptyDB) ∧
      res.errors = ["Game date is required. Please provide a date for this game."] := by
  have h := (C5_required_date_hard_fail emptyDB "stats_export.csv" [[("player", "Alice")]]
    1 .pnone none none none none none [("player", "Alice")] [] rfl (by decide) (by decide)).1
    rfl (by decide) (by decide)
  obtain ⟨res, heq, herr, _, _⟩ := h
  exact ⟨res, heq, herr⟩

/-! ## C10: import_multiple_files binds verbose into game_date -/

/-- A boolean-true `game_date` survives the whole resolution chain of the
unified importer: neither a CSV date cell nor a filename date replaces it. -/
theorem resolvedDateU_pbool_true (rm : Dict) (r0 : Dict) (path : String) :
    Importer.resolvedDateU (PyVal.pbool true) rm r0 path = PyVal.pbool true := by
  unfold Importer.resolvedDateU Importer.dateAfterCsv
  cases Importer.metaCell rm r0 "game_date" <;>
    cases (parse_filename_for_game_info path).game_date <;> rfl

/-- Counterexample to C10: importing a one-file batch (CSV with both a date
column and a filename date) creates no game at all — the batch aborts with
the `create_game` TypeError and the games table stays empty, so no game with
the boolean date exists. -/
theorem C10_cex :
    Importer.import_multiple_files emptyDB [c10File] (some 1) true =
      (.error Importer.createGameTypeError, emptyDB) ∧
    (Importer.import_multiple_files emptyDB [c10File] (some 1) true).2.games = [] := by
  exact ⟨rfl, by decide⟩

/-- C10 as amended: `import_multiple_files` passes its `verbose` flag
positionally into `import_file`'s third parameter `game_date`, so with the
default `verbose=True` every CSV file is imported with the boolean `True` as
date override: (a) the override survives the resolution chain, so no date
from the caller, the CSV columns, or the filename is used and the
required-date hard failure can never trigger; (b)(c) the import then reaches
the `create_game` call, which raises TypeError (no `game_time` parameter),
so no game row is written and the batch aborts with the exception. -/
theorem C10_amended_verbose_bound_to_date :
    (∀ (rm : Dict) (r0 : Dict) (path : String),
      Importer.resolvedDateU (PyVal.pbool true) rm r0 path = PyVal.pbool true) ∧
    (∀ (db : DB) (path : String) (rows : List Dict) (sid : Nat)
       (gt opp wl : Option String) (rf ra : Option Int) (r0 : Dict) (rest : List Dict),
      rows = r0 :: rest →
      (Importer.detect_csv_format (r0.map (·.1))).1 ≠ "unknown" →
      (Importer.detect_csv_format (r0.map (·.1))).2.isEmpty = false →
      Importer.import_gamechanger_csv db path rows sid (PyVal.pbool true) gt opp wl rf ra =
        (.error Importer.createGameTypeError, db)) ∧
    (∀ (db : DB) (f : Importer.FileModel) (sid : Option Nat) (header : List String)
       (rows : List Dict) (r0 : Dict) (rest : List Dict),
      f.content = .csv header rows →
      (Importer.detect_file_type f = "gamechanger_csv" ∨ Importer.detect_file_type f = "csv") →
      optNatTruthy sid = true →
      rows = r0 :: rest →
      (Importer.detect_csv_format (r0.map (·.1))).1 ≠ "unknown" →
      (Importer.detect_csv_format (r0.map (·.1))).2.isEmpty = false →
      Importer.import_multiple_files db [f] sid true =
        (.error Importer.createGameTypeError, db)) := by
  have hb : ∀ (db : DB) (path : String) (rows : List Dict) (sid : Nat)
      (gt opp wl : Option String) (rf ra : Option Int) (r0 : Dict) (rest : List Dict),
      rows = r0 :: rest →
      (Importer.detect_csv_format (r0.map (·.1))).1 ≠ "unknown" →
      (Importer.detect_csv_format (r0.map (·.1))).2.isEmpty = false →
      Importer.import_gamechanger_csv db path rows sid (PyVal.pbool true) gt opp wl rf ra =
        (.error Importer.createGameTypeError, db) := by
    intro db path rows sid gt opp wl rf ra r0 rest hrows hu he
    subst hrows
    have hcond : (decide ((Importer.detect_csv_format (r0.map (·.1))).1 = "unknown") ||
        (Importer.detect_csv_format (r0.map (·.1))).2.isEmpty) = false := by
      simp [hu, he]
    simp only [Importer.import_gamechanger_csv, hcond, Bool.false_eq_true, if_false,
      resolvedDateU_pbool_true, PyVal.truthy, Bool.not_true]
  refine ⟨resolvedDateU_pbool_true, hb, ?_⟩
  intro db f sid header rows r0 rest hcontent hft hsid hrows hu he
  have himp : Importer.import_file db f sid (PyVal.pbool true) none none none none none =
      (.error Importer.createGameTypeError, db) := by
    rcases hft with h | h <;>
      · simp only [Importer.import_file, h, hcontent, hsid, Bool.not_true,
          Bool.false_eq_true, if_false, if_true, reduceIte]
        rw [hb db f.path rows (sid.getD 0) none none none none none r0 rest hrows hu he]
        simp
  simp only [Importer.import_multiple_files, Importer.batchLoop, himp]

/-- Witness for C10 (amended): the batch path applied at the concrete file. -/
theorem C10_witness :
    Importer.import_multiple_files emptyDB [c10File] (some 1) true =
      (.error Importer.createGameTypeError, emptyDB) :=
  C10_amended_verbose_bound_to_date.2.2 emptyDB c10File (some 1)
    ["player", "ab", "r", "h", "date"]
    [[("player", "Alice"), ("ab", "3"), ("r", "1"), ("h", "2"), ("date", "9/6")]]
    [("player", "Alice"), ("ab", "3"), ("r", "1"), ("h", "2"), ("date", "9/6")] []
    rfl (Or.inr (by decide)) rfl rfl (by decide) (by decide)

/-! ## Supporting lemmas for the reconciliation proofs (C1, C2) -/

/-- Membership through stable date insertion. -/
theorem mem_insertByDate {a g : Game} {l : List Game} :
    a ∈ insertByDate g l ↔ a = g ∨ a ∈ l := by
  induction l with
  | nil => simp [insertByDate]
  | cons h t ih =>
      simp only [insertByDate]
      split
      · simp
      · simp only [List.mem_cons, ih]
        tauto

/-- Membership through the date sort. -/
theorem mem_sortByDate {a : Game} {l : List Game} : a ∈ sortByDate l ↔ a ∈ l := by
  induction l with
  | nil => simp [sortByDate]
  | cons g t ih => simp [sortByDate, mem_insertByDate, ih]

/-- Membership in a season's game list. -/
theorem mem_get_games_by_season {g : Game} {db : DB} {sid : Nat} :
    g ∈ get_games_by_season db sid ↔ g ∈ db.games ∧ g.season_id = sid := by
  simp [get_games_by_season, mem_sortByDate, List.mem_filter]

/-- `find?` returns the unique satisfying element. -/
theorem find?_eq_some_of_unique {α : Type} {p : α → Bool} {x : α} :
    ∀ {l : List α}, x ∈ l → p x = true → (∀ y ∈ l, p y = true → y = x) →
      l.find? p = some x
  | [], hx, _, _ => absurd hx (List.not_mem_nil x)
  | a :: t, hx, hp, huniq => by
      by_cases ha : p a = true
      · have hax : a = x := huniq a (List.mem_cons_self a t) ha
        rw [List.find?_cons_of_pos _ ha, hax]
      · have hxt : x ∈ t := by
          rcases List.mem_cons.mp hx with h | h
          · exact absurd (h ▸ hp) ha
          · exact h
        rw [List.find?_cons_of_neg _ ha]
        exact find?_eq_some_of_unique hxt hp
          (fun y hy hpy => huniq y (List.mem_cons_of_mem a hy) hpy)

/-- A satisfying member forces `find?` to succeed. -/
theorem find?_isSome_of_mem {α : Type} {p : α → Bool} {x : α} {l : List α}
    (hx : x ∈ l) (hp : p x = true) : (l.find? p).isSome = true := by
  cases hf : l.find? p
  · exact absurd hp (by simpa using List.find?_eq_none.mp hf x hx)
  · rfl

/-- Filtering away a predicate leaves no satisfying rows. -/
theorem countP_filter_not {α : Type} (p : α → Bool) (l : List α) :
    (l.filter (fun a => !p a)).countP p = 0 := by
  induction l with
  | nil => rfl
  | cons a t ih =>
      cases ha : p a <;> simp [List.filter, ha, List.countP_cons, ih]

/-- Filtering away a disjoint predicate keeps another predicate's count. -/
theorem countP_filter_not_of_imp {α : Type} {p q : α → Bool} (l : List α)
    (hdisj : ∀ a, p a = true → q a = false) :
    (l.filter (fun a => !p a)).countP q = l.countP q := by
  induction l with
  | nil => rfl
  | cons a t ih =>
      cases ha : p a
      · simp [List.filter, ha, List.countP_cons, ih]
      · simp [List.filter, ha, List.countP_cons, ih, hdisj a ha]

/-- Length accounting for `INSERT OR REPLACE`. -/
theorem length_filter_not_add_countP {α : Type} (p : α → Bool) (l : List α) :
    (l.filter (fun a => !p a)).length + l.countP p = l.length := by
  induction l with
  | nil => rfl
  | cons a t ih =>
      cases ha : p a <;> simp [List.filter, ha, List.countP_cons, ih] <;> omega

/-- Effect summary of `get_or_create_player`: it never touches games or
batting rows, the cleaned name afterwards resolves to the returned id, and
every previously resolvable name still resolves to the same row. -/
theorem gocp_effect (db : DB) (n : String) (j : Option String) :
    (get_or_create_player db n j).2.games = db.games ∧
    (get_or_create_player db n j).2.batting = db.batting ∧
    (∃ p, get_player_by_name (get_or_create_player db n j).2 (cleanNameDB n) = some p ∧
      p.id = (get_or_create_player db n j).1) ∧
    (∀ m q, get_player_by_name db m = some q →
      get_player_by_name (get_or_create_player db n j).2 m = some q) := by
  simp only [get_or_create_player]
  cases h : get_player_by_name db (cleanNameDB n) with
  | some p =>
      simp only [h]
      exact ⟨trivial, trivial, ⟨p, rfl, rfl⟩, fun m q hq => hq⟩
  | none =>
      simp only [h, create_player]
      refine ⟨trivial, trivial, ?_, ?_⟩
      · refine ⟨⟨db.next_player_id, cleanNameDB n, j⟩, ?_, rfl⟩
        unfold get_player_by_name at h ⊢
        rw [List.find?_append, h]
        simp
      · intro m q hq
        unfold get_player_by_name at hq ⊢
        rw [List.find?_append, hq]
        rfl

/-- When the cleaned name already resolves, `get_or_create_player` returns
that row's id and leaves the database unchanged. -/
theorem gocp_of_found (db : DB) (n : String) (j : Option String) (p : Player)
    (h : get_player_by_name db (cleanNameDB n) = some p) :
    get_or_create_player db n j = (p.id, db) := by
  simp only [get_or_create_player, h]

/-- Effect summary of `add_batting_stats`: games and players are untouched,
the written pair now holds exactly one row, all other pairs keep their
counts, the length changes by one minus the replaced rows, and every row is
an old row or carries the written game id. -/
theorem abs_effect (db : DB) (gid pid : Nat) (ab r h rbi bb so hbp sac : Int) :
    (add_batting_stats db gid pid ab r h rbi bb so hbp sac).2.games = db.games ∧
    (add_batting_stats db gid pid ab r h rbi bb so hbp sac).2.players = db.players ∧
    pairCount (add_batting_stats db gid pid ab r h rbi bb so hbp sac).2.batting gid pid = 1 ∧
    (∀ g' p', ¬(g' = gid ∧ p' = pid) →
      pairCount (add_batting_stats db gid pid ab r h rbi bb so hbp sac).2.batting g' p' =
        pairCount db.batting g' p') ∧
    (add_batting_stats db gid pid ab r h rbi bb so hbp sac).2.batting.length +
      pairCount db.batting gid pid = db.batting.length + 1 ∧
    (∀ b ∈ (add_batting_stats db gid pid ab r h rbi bb so hbp sac).2.batting,
      b ∈ db.batting ∨ b.game_id = gid) := by
  simp only [add_batting_stats]
  refine ⟨trivial, trivial, ?_, ?_, ?_, ?_⟩
  · unfold pairCount
    rw [List.countP_append, countP_filter_not]
    simp [List.countP_cons]
  · intro g' p' hne
    unfold pairCount
    rw [List.countP_append, countP_filter_not_of_imp]
    · have : (fun b : BattingStats => b.game_id = g' && b.player_id = p')
          ⟨db.next_batting_id, gid, pid, ab, r, h, rbi, bb, so, hbp, sac⟩ = false := by
        simp only [Bool.and_eq_false_iff, decide_eq_false_iff_not]
        by_cases hg : g' = gid
        · subst hg
          right
          intro hp
          exact hne ⟨rfl, hp.symm⟩
        · left
          intro hgg
          exact hg hgg.symm
      simp [List.countP_cons, this]
    · intro a hpa
      simp only [Bool.and_eq_true, decide_eq_true_eq] at hpa
      simp only [Bool.and_eq_false_iff, decide_eq_false_iff_not]
      by_cases hg : g' = gid
      · subst hg
        right
        rw [hpa.2]
        intro hp
        exact hne ⟨rfl, hp.symm⟩
      · left
        rw [hpa.1]
        intro hgg
        exact hg hgg.symm
  · rw [List.length_append]
    have := length_filter_not_add_countP
      (fun x : BattingStats => x.game_id = gid && x.player_id = pid) db.batting
    unfold pairCount
    simp only [List.length_cons, List.length_nil]
    omega
  · intro b hb
    rcases List.mem_append.mp hb with hb1 | hb1
    · exact Or.inl (List.mem_of_mem_filter hb1)
    · rcases List.mem_singleton.mp hb1 with rfl
      exact Or.inr rfl

/-- Lookups depend only on the players table. -/
theorem lookup_eq_of_players_eq {db1 db2 : DB} (h : db2.players = db1.players)
    (m : String) : get_player_by_name db2 m = get_player_by_name db1 m := by
  unfold get_player_by_name
  rw [h]

/-- One processed CSV row never touches the games table. -/
theorem processRow_games (rm : Dict) (pc : Option String) (gid : Nat)
    (acc : Nat × DB) (row : Dict) :
    (ImportCsv.processRow rm pc gid acc row).2.games = acc.2.games := by
  simp only [ImportCsv.processRow]
  by_cases hn : ImportCsv.csvRowName pc row = ""
  · simp [hn]
  · simp only [if_neg hn]
    exact ((abs_effect _ _ _ _ _ _ _ _ _ _ _).1).trans ((gocp_effect _ _ _).1)

/-- The whole stats loop never touches the games table. -/
theorem foldPR_games (rm : Dict) (pc : Option String) (gid : Nat) :
    ∀ (rows : List Dict) (acc : Nat × DB),
      (rows.foldl (ImportCsv.processRow rm pc gid) acc).2.games = acc.2.games
  | [], _ => rfl
  | r :: t, acc => by
      rw [List.foldl_cons, foldPR_games rm pc gid t _, processRow_games]

/-- Every batting row after one processed CSV row is an old row or belongs
to the processed game. -/
theorem processRow_prov (rm : Dict) (pc : Option String) (gid : Nat)
    (acc : Nat × DB) (row : Dict) :
    ∀ b ∈ (ImportCsv.processRow rm pc gid acc row).2.batting,
      b ∈ acc.2.batting ∨ b.game_id = gid := by
  simp only [ImportCsv.processRow]
  by_cases hn : ImportCsv.csvRowName pc row = ""
  · simp only [if_pos hn]
    exact fun b hb => Or.inl hb
  · simp only [if_neg hn]
    intro b hb
    rcases (abs_effect _ _ _ _ _ _ _ _ _ _ _).2.2.2.2.2 b hb with h1 | h1
    · rw [(gocp_effect _ _ _).2.1] at h1
      exact Or.inl h1
    · exact Or.inr h1

/-- Every batting row after the whole stats loop is an old row or belongs to
the processed game. -/
theorem foldPR_prov (rm : Dict) (pc : Option String) (gid : Nat) :
    ∀ (rows : List Dict) (acc : Nat × DB),
      ∀ b ∈ (rows.foldl (ImportCsv.processRow rm pc gid) acc).2.batting,
        b ∈ acc.2.batting ∨ b.game_id = gid
  | [], _, b, hb => Or.inl hb
  | r :: t, acc, b, hb => by
      rw [List.foldl_cons] at hb
      rcases foldPR_prov rm pc gid t _ b hb with h1 | h1
      · exact processRow_prov rm pc gid acc r b h1
      · exact Or.inr h1

/-- Processing one row preserves the readiness of any row. -/
theorem processRow_pres_ready (rm : Dict) (pc : Option String) (gid : Nat)
    (acc : Nat × DB) (row row0 : Dict)
    (hready : pairReady gid pc acc.2 row0) :
    pairReady gid pc (ImportCsv.processRow rm pc gid acc row).2 row0 := by
  intro hn0
  obtain ⟨p, hlook, hcount⟩ := hready hn0
  simp only [ImportCsv.processRow]
  by_cases hn : ImportCsv.csvRowName pc row = ""
  · simp only [if_pos hn]
    exact ⟨p, hlook, hcount⟩
  · simp only [if_neg hn]
    have h1 := gocp_effect acc.2 (ImportCsv.csvRowName pc row) none
    have h2 := abs_effect (get_or_create_player acc.2 (ImportCsv.csvRowName pc row) none).2
      gid (get_or_create_player acc.2 (ImportCsv.csvRowName pc row) none).1
      (ImportCsv.csvStat rm row "ab") (ImportCsv.csvStat rm row "r")
      (ImportCsv.csvStat rm row "h") (ImportCsv.csvStat rm row "rbi")
      (ImportCsv.csvStat rm row "bb") (ImportCsv.csvStat rm row "so")
      (ImportCsv.csvStat rm row "hbp") (ImportCsv.csvStat rm row "sac")
    refine ⟨p, ?_, ?_⟩
    · rw [lookup_eq_of_players_eq h2.2.1]
      exact h1.2.2.2 _ _ hlook
    · by_cases hpid : p.id = (get_or_create_player acc.2 (ImportCsv.csvRowName pc row) none).1
      · rw [hpid]
        exact h2.2.2.1
      · rw [h2.2.2.2.1 gid p.id (fun hcontra => hpid hcontra.2)]
        rw [h1.2.1]
        exact hcount

/-- Processing one row establishes the readiness of that row. -/
theorem processRow_establish (rm : Dict) (pc : Option String) (gid : Nat)
    (acc : Nat × DB) (row : Dict) :
    pairReady gid pc (ImportCsv.processRow rm pc gid acc row).2 row := by
  intro hn
  simp only [ImportCsv.processRow, if_neg hn]
  have h1 := gocp_effect acc.2 (ImportCsv.csvRowName pc row) none
  obtain ⟨p, hlook1, hpid⟩ := h1.2.2.1
  have h2 := abs_effect (get_or_create_player acc.2 (ImportCsv.csvRowName pc row) none).2
    gid (get_or_create_player acc.2 (ImportCsv.csvRowName pc row) none).1
    (ImportCsv.csvStat rm row "ab") (ImportCsv.csvStat rm row "r")
    (ImportCsv.csvStat rm row "h") (ImportCsv.csvStat rm row "rbi")
    (ImportCsv.csvStat rm row "bb") (ImportCsv.csvStat rm row "so")
    (ImportCsv.csvStat rm row "hbp") (ImportCsv.csvStat rm row "sac")
  refine ⟨p, ?_, ?_⟩
  · rw [lookup_eq_of_players_eq h2.2.1]
    exact hlook1
  · rw [hpid]
    exact h2.2.2.1

/-- The stats loop preserves the readiness of any row. -/
theorem foldPR_pres_ready (rm : Dict) (pc : Option String) (gid : Nat) :
    ∀ (rows : List Dict) (acc : Nat × DB) (row0 : Dict),
      pairReady gid pc acc.2 row0 →
      pairReady gid pc ((rows.foldl (ImportCsv.processRow rm pc gid) acc)).2 row0
  | [], _, _, h => h
  | r :: t, acc, row0, h => by
      rw [List.foldl_cons]
      exact foldPR_pres_ready rm pc gid t _ row0
        (processRow_pres_ready rm pc gid acc r row0 h)

/-- The stats loop leaves every processed row ready. -/
theorem foldPR_establish (rm : Dict) (pc : Option String) (gid : Nat) :
    ∀ (rows : List Dict) (acc : Nat × DB) (row : Dict), row ∈ rows →
      pairReady gid pc ((rows.foldl (ImportCsv.processRow rm pc gid) acc)).2 row
  | [], _, _, hmem => absurd hmem (List.not_mem_nil _)
  | r :: t, acc, row, hmem => by
      rw [List.foldl_cons]
      rcases List.mem_cons.mp hmem with h | h
      · subst h
        exact foldPR_pres_ready rm pc gid t _ row
          (processRow_establish rm pc gid acc row)
      · exact foldPR_establish rm pc gid t _ row h

/-- Re-processing a ready row keeps the batting table's length. -/
theorem processRow_ready_len (rm : Dict) (pc : Option String) (gid : Nat)
    (acc : Nat × DB) (row : Dict) (hready : pairReady gid pc acc.2 row) :
    (ImportCsv.processRow rm pc gid acc row).2.batting.length = acc.2.batting.length := by
  simp only [ImportCsv.processRow]
  by_cases hn : ImportCsv.csvRowName pc row = ""
  · simp [hn]
  · simp only [if_neg hn]
    obtain ⟨p, hlook, hcount⟩ := hready hn
    rw [gocp_of_found acc.2 (ImportCsv.csvRowName pc row) none p hlook]
    dsimp only
    have h2 := (abs_effect acc.2 gid p.id
      (ImportCsv.csvStat rm row "ab") (ImportCsv.csvStat rm row "r")
      (ImportCsv.csvStat rm row "h") (ImportCsv.csvStat rm row "rbi")
      (ImportCsv.csvStat rm row "bb") (ImportCsv.csvStat rm row "so")
      (ImportCsv.csvStat rm row "hbp") (ImportCsv.csvStat rm row "sac")).2.2.2.2.1
    rw [hcount] at h2
    omega

/-- Re-processing an all-ready row list keeps the batting table's length. -/
theorem foldPR_ready_len (rm : Dict) (pc : Option String) (gid : Nat) :
    ∀ (rows : List Dict) (acc : Nat × DB),
      (∀ row ∈ rows, pairReady gid pc acc.2 row) →
      ((rows.foldl (ImportCsv.processRow rm pc gid) acc)).2.batting.length =
        acc.2.batting.length
  | [], _, _ => rfl
  | r :: t, acc, h => by
      rw [List.foldl_cons]
      rw [foldPR_ready_len rm pc gid t _ (fun row hrow =>
        processRow_pres_ready rm pc gid acc r row (h row (List.mem_cons_of_mem r hrow)))]
      exact processRow_ready_len rm pc gid acc r (h r (List.mem_cons_self r t))

/-- Reduction of the import_csv.py importer on a non-empty row list whose
format detection succeeds: the result is the game-resolution step followed
by the stats loop. -/
theorem importCsv_reduce (db : DB) (path : String) (r0 : Dict) (rest : List Dict)
    (sid : Nat) (gd opp : Option String)
    (hcond : (decide ((ImportCsv.detect_csv_format (r0.map (·.1))).1 = "unknown") ||
      (ImportCsv.detect_csv_format (r0.map (·.1))).2.isEmpty) = false) :
    ImportCsv.import_gamechanger_csv db path (r0 :: rest) sid gd opp =
      ({ game_id := some (ImportCsv.gameStep db path
            (ImportCsv.detect_csv_format (r0.map (·.1))).1 sid
            (ImportCsv.resolvedDate path gd) (ImportCsv.resolvedOpp path opp)
            (ImportCsv.totalRuns (reverseMap (ImportCsv.detect_csv_format (r0.map (·.1))).2)
              (r0 :: rest))).1,
         stats_imported := (ImportCsv.processRows
            (reverseMap (ImportCsv.detect_csv_format (r0.map (·.1))).2)
            (dictGet (reverseMap (ImportCsv.detect_csv_format (r0.map (·.1))).2) "player_name")
            (ImportCsv.gameStep db path (ImportCsv.detect_csv_format (r0.map (·.1))).1 sid
              (ImportCsv.resolvedDate path gd) (ImportCsv.resolvedOpp path opp)
              (ImportCsv.totalRuns (reverseMap (ImportCsv.detect_csv_format (r0.map (·.1))).2)
                (r0 :: rest))).1
            (r0 :: rest)
            (ImportCsv.gameStep db path (ImportCsv.detect_csv_format (r0.map (·.1))).1 sid
              (ImportCsv.resolvedDate path gd) (ImportCsv.resolvedOpp path opp)
              (ImportCsv.totalRuns (reverseMap (ImportCsv.detect_csv_format (r0.map (·.1))).2)
                (r0 :: rest))).2).1,
         errors := [] },
       (ImportCsv.processRows
          (reverseMap (ImportCsv.detect_csv_format (r0.map (·.1))).2)
          (dictGet (reverseMap (ImportCsv.detect_csv_format (r0.map (·.1))).2) "player_name")
          (ImportCsv.gameStep db path (ImportCsv.detect_csv_format (r0.map (·.1))).1 sid
            (ImportCsv.resolvedDate path gd) (ImportCsv.resolvedOpp path opp)
            (ImportCsv.totalRuns (reverseMap (ImportCsv.detect_csv_format (r0.map (·.1))).2)
              (r0 :: rest))).1
          (r0 :: rest)
          (ImportCsv.gameStep db path (ImportCsv.detect_csv_format (r0.map (·.1))).1 sid
            (ImportCsv.resolvedDate path gd) (ImportCsv.resolvedOpp path opp)
            (ImportCsv.totalRuns (reverseMap (ImportCsv.detect_csv_format (r0.map (·.1))).2)
              (r0 :: rest))).2).2) := by
  simp only [ImportCsv.import_gamechanger_csv, hcond, Bool.false_eq_true, if_false]

/-- A game whose date and opponent equal the incoming ones passes the fuzzy
test (containment of a string in itself). -/
theorem fuzzyPred_of_eq (gd opp : String) (g : Game) (hd : g.game_date = gd)
    (ho : g.opponent_name = opp) : fuzzyPred gd opp g = true := by
  unfold fuzzyPred pyIn
  rw [hd, ho]
  simp [List.infix_refl]

/-! ## C2: fuzzy duplicate-game matching in the CSV importer -/

/-- C2: when a game of the target season already exists on the resolved date
with a fuzzily matching opponent (case- and space-insensitive containment in
either direction), the import_csv.py importer attaches all new batting rows
to such an existing game and creates no new Game row. -/
theorem C2_fuzzy_match_attaches (db : DB) (path : String) (rows : List Dict)
    (sid : Nat) (gdArg oppArg : Option String) (r0 : Dict) (rest : List Dict)
    (hrows : rows = r0 :: rest)
    (hcond : (decide ((ImportCsv.detect_csv_format (r0.map (·.1))).1 = "unknown") ||
      (ImportCsv.detect_csv_format (r0.map (·.1))).2.isEmpty) = false)
    (g : Game) (hg : g ∈ db.games) (hsid : g.season_id = sid)
    (hfz : fuzzyPred (ImportCsv.resolvedDate path gdArg)
      (ImportCsv.resolvedOpp path oppArg) g = true) :
    (ImportCsv.import_gamechanger_csv db path rows sid gdArg oppArg).2.games = db.games ∧
    ∃ g' ∈ db.games, g'.season_id = sid ∧
      fuzzyPred (ImportCsv.resolvedDate path gdArg)
        (ImportCsv.resolvedOpp path oppArg) g' = true ∧
      (ImportCsv.import_gamechanger_csv db path rows sid gdArg oppArg).1.game_id =
        some g'.id ∧
      ∀ b ∈ (ImportCsv.import_gamechanger_csv db path rows sid gdArg oppArg).2.batting,
        b ∈ db.batting ∨ b.game_id = g'.id := by
  subst hrows
  have hmem : g ∈ get_games_by_season db sid := mem_get_games_by_season.mpr ⟨hg, hsid⟩
  have hsome := find?_isSome_of_mem hmem hfz
  cases hm : (get_games_by_season db sid).find? (fuzzyPred
      (ImportCsv.resolvedDate path gdArg) (ImportCsv.resolvedOpp path oppArg)) with
  | none =>
      rw [hm] at hsome
      exact absurd hsome (by simp)
  | some gm =>
      have hgm_pred := List.find?_some hm
      obtain ⟨hgm_in, hgm_sid⟩ := mem_get_games_by_season.mp (List.mem_of_find?_eq_some hm)
      have hgs : ImportCsv.gameStep db path
          (ImportCsv.detect_csv_format (r0.map (·.1))).1 sid
          (ImportCsv.resolvedDate path gdArg) (ImportCsv.resolvedOpp path oppArg)
          (ImportCsv.totalRuns (reverseMap (ImportCsv.detect_csv_format (r0.map (·.1))).2)
            (r0 :: rest)) = (gm.id, db) := by
        unfold ImportCsv.gameStep
        rw [hm]
      rw [importCsv_reduce db path r0 rest sid gdArg oppArg hcond, hgs]
      refine ⟨?_, gm, hgm_in, hgm_sid, hgm_pred, rfl, ?_⟩
      · simp only [ImportCsv.processRows]
        exact foldPR_games _ _ _ _ _
      · intro b hb
        simp only [ImportCsv.processRows] at hb
        exact foldPR_prov _ _ _ _ _ b hb

/-- Witness for C2: importing a CSV with opponent "NJ Vipers" for 9/6 when
"NJ Vipers 12U White" already has a game that day attaches to it — the games
table is unchanged and the result references the existing game id 1. -/
theorem C2_witness :
    (ImportCsv.import_gamechanger_csv c2DB "stats.csv"
      [[("player", "Alice"), ("ab", "3"), ("r", "1"), ("h", "2")]] 1
      (some "9/6") (some "NJ Vipers")).2.games = c2DB.games ∧
    (ImportCsv.import_gamechanger_csv c2DB "stats.csv"
      [[("player", "Alice"), ("ab", "3"), ("r", "1"), ("h", "2")]] 1
      (some "9/6") (some "NJ Vipers")).1.game_id = some 1 := by
  have h := C2_fuzzy_match_attaches c2DB "stats.csv"
    [[("player", "Alice"), ("ab", "3"), ("r", "1"), ("h", "2")]] 1
    (some "9/6") (some "NJ Vipers")
    [("player", "Alice"), ("ab", "3"), ("r", "1"), ("h", "2")] [] rfl (by decide)
    c2Game (by decide) rfl (by decide)
  obtain ⟨hgames, g', hmem, _, _, hgid, _⟩ := h
  refine ⟨hgames, ?_⟩
  have hg' : g' = c2Game := List.mem_singleton.mp (show g' ∈ [c2Game] from hmem)
  rw [hgid, hg']
  rfl

/-! ## C1: idempotent upsert and re-import -/

/-- A season's game list depends only on the games table. -/
theorem ggs_games_congr {db1 db2 : DB} (h : db1.games = db2.games) (sid : Nat) :
    get_games_by_season db1 sid = get_games_by_season db2 sid := by
  unfold get_games_by_season
  rw [h]

/-- On a key hit, `create_game` returns the existing id and the table keeps
its length. -/
theorem create_game_of_found (db : DB) (sid : Nat) (d o : String) (wl : Option String)
    (rf ra : Option Int) (otid : Option Nat) (nts : Option String) (g : Game)
    (h : findExistingGame db sid d o rf ra = some g) :
    (create_game db sid d o wl rf ra otid nts).1 = g.id ∧
    (create_game db sid d o wl rf ra otid nts).2.games.length = db.games.length := by
  simp only [create_game, h]
  exact ⟨trivial, by simp⟩

/-- On a key miss, `create_game` appends exactly the new row. -/
theorem create_game_of_none (db : DB) (sid : Nat) (d o : String) (wl : Option String)
    (rf ra : Option Int) (otid : Option Nat) (nts : Option String)
    (h : findExistingGame db sid d o rf ra = none) :
    create_game db sid d o wl rf ra otid nts =
      (db.next_game_id,
       { db with
           games := db.games ++
             [{ id := db.next_game_id, season_id := sid, game_date := d,
                opponent_name := o, opponent_team_id := otid, win_loss := wl,
                runs_for := rf, runs_against := ra, notes := nts }],
           next_game_id := db.next_game_id + 1 }) := by
  simp only [create_game, h]

/-- With an unknown `runs_against`, the duplicate lookup of `create_game` is
the exact (season, date, opponent) match. -/
theorem findExistingGame_no_score (db : DB) (sid : Nat) (d o : String) (rf : Option Int) :
    findExistingGame db sid d o rf none =
      db.games.find? (fun g => g.season_id = sid && g.game_date = d
        && g.opponent_name = o) := by
  cases rf <;> rfl

/-- C1: (a) `create_game` upserts on the game identity key — a key hit
updates the existing row (the table length is unchanged and the existing id
is returned), a key miss inserts exactly one row; (b) re-importing the same
CSV file into the same season creates no further Game row; (c) one import
adds at most one Game row; (d) the re-import leaves the batting-line count
unchanged (rows are replaced, not duplicated); (e) a first import of a
detectable file into a season with no fuzzily matching game adds exactly one
Game row. -/
theorem C1_idempotent_upsert_reimport (db : DB) (path : String) (rows : List Dict)
    (sid : Nat) (gdArg oppArg : Option String) :
    (∀ (db' : DB) (sid' : Nat) (d o : String) (wl : Option String) (rf ra : Option Int)
       (otid : Option Nat) (nts : Option String),
      (create_game db' sid' d o wl rf ra otid nts).2.games.length =
        (if (findExistingGame db' sid' d o rf ra).isSome then db'.games.length
         else db'.games.length + 1) ∧
      (∀ g, findExistingGame db' sid' d o rf ra = some g →
        (create_game db' sid' d o wl rf ra otid nts).1 = g.id)) ∧
    (ImportCsv.import_gamechanger_csv
        (ImportCsv.import_gamechanger_csv db path rows sid gdArg oppArg).2
        path rows sid gdArg oppArg).2.games =
      (ImportCsv.import_gamechanger_csv db path rows sid gdArg oppArg).2.games ∧
    (ImportCsv.import_gamechanger_csv db path rows sid gdArg oppArg).2.games.length ≤
      db.games.length + 1 ∧
    (ImportCsv.import_gamechanger_csv
        (ImportCsv.import_gamechanger_csv db path rows sid gdArg oppArg).2
        path rows sid gdArg oppArg).2.batting.length =
      (ImportCsv.import_gamechanger_csv db path rows sid gdArg oppArg).2.batting.length ∧
    (∀ r0 rest, rows = r0 :: rest →
      (decide ((ImportCsv.detect_csv_format (r0.map (·.1))).1 = "unknown") ||
        (ImportCsv.detect_csv_format (r0.map (·.1))).2.isEmpty) = false →
      (get_games_by_season db sid).find? (fuzzyPred (ImportCsv.resolvedDate path gdArg)
        (ImportCsv.resolvedOpp path oppArg)) = none →
      (ImportCsv.import_gamechanger_csv db path rows sid gdArg oppArg).2.games.length =
        db.games.length + 1) := by
  have ha : ∀ (db' : DB) (sid' : Nat) (d o : String) (wl : Option String) (rf ra : Option Int)
      (otid : Option Nat) (nts : Option String),
      (create_game db' sid' d o wl rf ra otid nts).2.games.length =
        (if (findExistingGame db' sid' d o rf ra).isSome then db'.games.length
         else db'.games.length + 1) ∧
      (∀ g, findExistingGame db' sid' d o rf ra = some g →
        (create_game db' sid' d o wl rf ra otid nts).1 = g.id) := by
    intro db' sid' d o wl rf ra otid nts
    refine ⟨?_, ?_⟩
    · cases hf : findExistingGame db' sid' d o rf ra with
      | none => simp [create_game, hf]
      | some g => simp [create_game, hf]
    · intro g hg
      exact (create_game_of_found db' sid' d o wl rf ra otid nts g hg).1
  refine ⟨ha, ?_⟩
  cases rows with
  | nil =>
      refine ⟨rfl, Nat.le_succ _, rfl, ?_⟩
      intro r0 rest h
      exact absurd h (by simp)
  | cons r0 rest =>
      by_cases hct : (decide ((ImportCsv.detect_csv_format (r0.map (·.1))).1 = "unknown") ||
          (ImportCsv.detect_csv_format (r0.map (·.1))).2.isEmpty) = true
      · have herr : ∀ dbx : DB,
            (ImportCsv.import_gamechanger_csv dbx path (r0 :: rest) sid gdArg oppArg).2 = dbx := by
          intro dbx
          simp only [ImportCsv.import_gamechanger_csv, hct, if_true]
        refine ⟨?_, ?_, ?_, ?_⟩
        · rw [herr ((ImportCsv.import_gamechanger_csv db path (r0 :: rest) sid gdArg oppArg).2)]
        · rw [herr db]
          exact Nat.le_succ _
        · rw [herr ((ImportCsv.import_gamechanger_csv db path (r0 :: rest) sid gdArg oppArg).2)]
        · intro r0' rest' hrows hcond2 _
          injection hrows with h1 h2
          subst h1
          rw [hcond2] at hct
          exact Bool.noConfusion hct
      · have hcond : (decide ((ImportCsv.detect_csv_format (r0.map (·.1))).1 = "unknown") ||
            (ImportCsv.detect_csv_format (r0.map (·.1))).2.isEmpty) = false := by
          revert hct
          cases (decide ((ImportCsv.detect_csv_format (r0.map (·.1))).1 = "unknown") ||
            (ImportCsv.detect_csv_format (r0.map (·.1))).2.isEmpty)
          · intro _
            rfl
          · intro h
            exact absurd rfl h
        have hred1 := importCsv_reduce db path r0 rest sid gdArg oppArg hcond
        cases hm : (get_games_by_season db sid).find?
            (fuzzyPred (ImportCsv.resolvedDate path gdArg)
              (ImportCsv.resolvedOpp path oppArg)) with
        | some gm =>
            have hgs1 : ImportCsv.gameStep db path
                (ImportCsv.detect_csv_format (r0.map (·.1))).1 sid
                (ImportCsv.resolvedDate path gdArg) (ImportCsv.resolvedOpp path oppArg)
                (ImportCsv.totalRuns (reverseMap
                  (ImportCsv.detect_csv_format (r0.map (·.1))).2) (r0 :: rest)) =
                (gm.id, db) := by
              unfold ImportCsv.gameStep
              rw [hm]
            have hout1 : (ImportCsv.import_gamechanger_csv db path (r0 :: rest) sid
                gdArg oppArg).2 =
                (ImportCsv.processRows (reverseMap
                    (ImportCsv.detect_csv_format (r0.map (·.1))).2)
                  (dictGet (reverseMap (ImportCsv.detect_csv_format (r0.map (·.1))).2)
                    "player_name")
                  gm.id (r0 :: rest) db).2 := by
              rw [hred1, hgs1]
            have hgames1 : (ImportCsv.import_gamechanger_csv db path (r0 :: rest) sid
                gdArg oppArg).2.games = db.games := by
              rw [hout1]
              simp only [ImportCsv.processRows]
              exact foldPR_games _ _ _ _ _
            have hm2 : (get_games_by_season
                (ImportCsv.import_gamechanger_csv db path (r0 :: rest) sid gdArg oppArg).2
                sid).find? (fuzzyPred (ImportCsv.resolvedDate path gdArg)
                  (ImportCsv.resolvedOpp path oppArg)) = some gm := by
              rw [ggs_games_congr hgames1 sid]
              exact hm
            have hgs2 : ImportCsv.gameStep
                (ImportCsv.import_gamechanger_csv db path (r0 :: rest) sid gdArg oppArg).2
                path (ImportCsv.detect_csv_format (r0.map (·.1))).1 sid
                (ImportCsv.resolvedDate path gdArg) (ImportCsv.resolvedOpp path oppArg)
                (ImportCsv.totalRuns (reverseMap
                  (ImportCsv.detect_csv_format (r0.map (·.1))).2) (r0 :: rest)) =
                (gm.id, (ImportCsv.import_gamechanger_csv db path (r0 :: rest) sid
                  gdArg oppArg).2) := by
              unfold ImportCsv.gameStep
              rw [hm2]
            have hred2 := importCsv_reduce
              (ImportCsv.import_gamechanger_csv db path (r0 :: rest) sid gdArg oppArg).2
              path r0 rest sid gdArg oppArg hcond
            have hready : ∀ row ∈ r0 :: rest, pairReady gm.id
                (dictGet (reverseMap (ImportCsv.detect_csv_format (r0.map (·.1))).2)
                  "player_name")
                (ImportCsv.import_gamechanger_csv db path (r0 :: rest) sid gdArg oppArg).2
                row := by
              intro row hrow
              rw [hout1]
              simp only [ImportCsv.processRows]
              exact foldPR_establish _ _ _ _ _ row hrow
            refine ⟨?_, ?_, ?_, ?_⟩
            · rw [hred2, hgs2]
              simp only [ImportCsv.processRows]
              exact foldPR_games _ _ _ _ _
            · rw [hgames1]
              exact Nat.le_succ _
            · rw [hred2, hgs2]
              simp only [ImportCsv.processRows]
              exact foldPR_ready_len _ _ _ _ _ hready
            · intro r0' rest' hrows' _ hfind
              injection hrows' with h1 h2
              subst h1
              exact Option.noConfusion hfind
        | none =>
            have hfe : findExistingGame db sid (ImportCsv.resolvedDate path gdArg)
                (ImportCsv.resolvedOpp path oppArg)
                (some (ImportCsv.totalRuns (reverseMap
                  (ImportCsv.detect_csv_format (r0.map (·.1))).2) (r0 :: rest))) none =
                none := by
              rw [findExistingGame_no_score]
              cases hf0 : db.games.find? (fun g =>
                  g.season_id = sid && g.game_date = ImportCsv.resolvedDate path gdArg
                  && g.opponent_name = ImportCsv.resolvedOpp path oppArg) with
              | none => rfl
              | some g0 =>
                  exfalso
                  have hp := List.find?_some hf0
                  simp only [Bool.and_eq_true, decide_eq_true_eq] at hp
                  have hmem0 : g0 ∈ get_games_by_season db sid :=
                    mem_get_games_by_season.mpr ⟨List.mem_of_find?_eq_some hf0, hp.1.1⟩
                  have hfz0 : fuzzyPred (ImportCsv.resolvedDate path gdArg)
                      (ImportCsv.resolvedOpp path oppArg) g0 = true :=
                    fuzzyPred_of_eq _ _ g0 hp.1.2 hp.2
                  exact absurd hfz0 (by simpa using List.find?_eq_none.mp hm g0 hmem0)
            have hgs1 : ImportCsv.gameStep db path
                (ImportCsv.detect_csv_format (r0.map (·.1))).1 sid
                (ImportCsv.resolvedDate path gdArg) (ImportCsv.resolvedOpp path oppArg)
                (ImportCsv.totalRuns (reverseMap
                  (ImportCsv.detect_csv_format (r0.map (·.1))).2) (r0 :: rest)) =
                (db.next_game_id,
                 { db with
                     games := db.games ++ [newGame db path
                       (ImportCsv.detect_csv_format (r0.map (·.1))).1 sid
                       (ImportCsv.resolvedDate path gdArg)
                       (ImportCsv.resolvedOpp path oppArg)
                       (ImportCsv.totalRuns (reverseMap
                         (ImportCsv.detect_csv_format (r0.map (·.1))).2) (r0 :: rest))],
                     next_game_id := db.next_game_id + 1 }) := by
              unfold ImportCsv.gameStep newGame
              rw [hm]
              exact create_game_of_none db sid _ _ none _ none none _ hfe
            have hout1 : (ImportCsv.import_gamechanger_csv db path (r0 :: rest) sid
                gdArg oppArg).2 =
                (ImportCsv.processRows (reverseMap
                    (ImportCsv.detect_csv_format (r0.map (·.1))).2)
                  (dictGet (reverseMap (ImportCsv.detect_csv_format (r0.map (·.1))).2)
                    "player_name")
                  db.next_game_id (r0 :: rest)
                  { db with
                      games := db.games ++ [newGame db path
                        (ImportCsv.detect_csv_format (r0.map (·.1))).1 sid
                        (ImportCsv.resolvedDate path gdArg)
                        (ImportCsv.resolvedOpp path oppArg)
                        (ImportCsv.totalRuns (reverseMap
                          (ImportCsv.detect_csv_format (r0.map (·.1))).2) (r0 :: rest))],
                      next_game_id := db.next_game_id + 1 }).2 := by
              rw [hred1, hgs1]
            have hgames1 : (ImportCsv.import_gamechanger_csv db path (r0 :: rest) sid
                gdArg oppArg).2.games =
                db.games ++ [newGame db path
                  (ImportCsv.detect_csv_format (r0.map (·.1))).1 sid
                  (ImportCsv.resolvedDate path gdArg)
                  (ImportCsv.resolvedOpp path oppArg)
                  (ImportCsv.totalRuns (reverseMap
                    (ImportCsv.detect_csv_format (r0.map (·.1))).2) (r0 :: rest))] := by
              rw [hout1]
              simp only [ImportCsv.processRows]
              exact foldPR_games _ _ _ _ _
            have hm2 : (get_games_by_season
                (ImportCsv.import_gamechanger_csv db path (r0 :: rest) sid gdArg oppArg).2
                sid).find? (fuzzyPred (ImportCsv.resolvedDate path gdArg)
                  (ImportCsv.resolvedOpp path oppArg)) =
                some (newGame db path (ImportCsv.detect_csv_format (r0.map (·.1))).1 sid
                  (ImportCsv.resolvedDate path gdArg)
                  (ImportCsv.resolvedOpp path oppArg)
                  (ImportCsv.totalRuns (reverseMap
                    (ImportCsv.detect_csv_format (r0.map (·.1))).2) (r0 :: rest))) := by
              apply find?_eq_some_of_unique
              · refine mem_get_games_by_season.mpr ⟨?_, rfl⟩
                rw [hgames1]
                exact List.mem_append_right _ (List.mem_singleton.mpr rfl)
              · exact fuzzyPred_of_eq _ _ _ rfl rfl
              · intro y hy hpy
                obtain ⟨hy1, hy2⟩ := mem_get_games_by_season.mp hy
                rw [hgames1] at hy1
                rcases List.mem_append.mp hy1 with h | h
                · exfalso
                  have hmem0 : y ∈ get_games_by_season db sid :=
                    mem_get_games_by_season.mpr ⟨h, hy2⟩
                  exact absurd hpy (by simpa using List.find?_eq_none.mp hm y hmem0)
                · exact List.mem_singleton.mp h
            have hgs2 : ImportCsv.gameStep
                (ImportCsv.import_gamechanger_csv db path (r0 :: rest) sid gdArg oppArg).2
                path (ImportCsv.detect_csv_format (r0.map (·.1))).1 sid
                (ImportCsv.resolvedDate path gdArg) (ImportCsv.resolvedOpp path oppArg)
                (ImportCsv.totalRuns (reverseMap
                  (ImportCsv.detect_csv_format (r0.map (·.1))).2) (r0 :: rest)) =
                (db.next_game_id,
                 (ImportCsv.import_gamechanger_csv db path (r0 :: rest) sid
                   gdArg oppArg).2) := by
              unfold ImportCsv.gameStep
              rw [hm2]
              rfl
            have hred2 := importCsv_reduce
              (ImportCsv.import_gamechanger_csv db path (r0 :: rest) sid gdArg oppArg).2
              path r0 rest sid gdArg oppArg hcond
            have hready : ∀ row ∈ r0 :: rest, pairReady db.next_game_id
                (dictGet (reverseMap (ImportCsv.detect_csv_format (r0.map (·.1))).2)
                  "player_name")
                (ImportCsv.import_gamechanger_csv db path (r0 :: rest) sid gdArg oppArg).2
                row := by
              intro row hrow
              rw [hout1]
              simp only [ImportCsv.processRows]
              exact foldPR_establish _ _ _ _ _ row hrow
            refine ⟨?_, ?_, ?_, ?_⟩
            · rw [hred2, hgs2]
              simp only [ImportCsv.processRows]
              exact foldPR_games _ _ _ _ _
            · rw [hgames1]
              simp
            · rw [hred2, hgs2]
              simp only [ImportCsv.processRows]
              exact foldPR_ready_len _ _ _ _ _ hready
            · intro r0' rest' hrows' _ _
              injection hrows' with h1 h2
              subst h1
              rw [hgames1]
              simp

/-- Witness for C1: importing a concrete two-row standard-dialect CSV into an
empty database creates exactly one game. -/
theorem C1_witness :
    (ImportCsv.import_gamechanger_csv emptyDB "game1_sep6_vipers.csv"
      (c1Row0 :: c1Rest) 1 none none).2.games.length = emptyDB.games.length + 1 :=
  (C1_idempotent_upsert_reimport emptyDB "game1_sep6_vipers.csv" (c1Row0 :: c1Rest)
    1 none none).2.2.2.2 c1Row0 c1Rest rfl (by decide) (by rfl)

end SB
